import Mathlib

set_option maxRecDepth 10000

/-!
Shallow embedding of the order-flow core of the `ordeflow` repository
(src/models.py, src/footprint_engine.py, src/regime_detector.py,
src/liquidity_sweep.py, src/strategy_engine.py), with theorems settling the
frozen claims about it.

Modelling conventions:
* Python `float` values are modelled as `ℚ` (exact arithmetic); `int` as `ℤ`
  or `ℕ`.  Python `//` on ints is `Int.fdiv`, `math.floor` is `Int.floor`.
* Python `dict` (insertion-ordered, unique keys) is modelled as a `List` in
  insertion order; `collections.deque(maxlen=n)` as a `List` with the
  capacity-evicting push `pushCap n`.
* `FootprintCandle.low` defaults to `float("inf")` in the source, where it
  only serves as the identity of the running minimum: the engine folds the
  opening tick into a fresh candle before the candle is ever observable, so
  `low` always equals the minimum of the folded tick prices.  We seed `low`
  with the opening price (the opening tick's price), which produces the same
  value for every observable candle.  `high` is seeded with `0.0` exactly as
  in the source, because that value is observable (it caps `high` from below).
-/

/-! ### Definitions from the source -/

/-- src/models.py `RawTick`: one exchange trade event. -/
structure RawTick where
  timestamp : ℤ
  price : ℚ
  quantity : ℚ
  is_buyer_maker : Bool
deriving DecidableEq, Repr

/-- src/models.py `RawTick.is_buy`: `not is_buyer_maker`. -/
def RawTick.is_buy (t : RawTick) : Bool := !t.is_buyer_maker

/-- src/models.py `FootprintLevel`: per-price accumulation of bid/ask volume. -/
structure FootprintLevel where
  price : ℚ
  bid_volume : ℚ := 0
  ask_volume : ℚ := 0
  trades : ℕ := 0
deriving DecidableEq, Repr

/-- src/models.py `FootprintLevel.delta = ask_volume - bid_volume`. -/
def FootprintLevel.delta (l : FootprintLevel) : ℚ := l.ask_volume - l.bid_volume

/-- src/models.py `FootprintLevel.total_volume = bid_volume + ask_volume`. -/
def FootprintLevel.total_volume (l : FootprintLevel) : ℚ := l.bid_volume + l.ask_volume

/-- src/models.py `ValueArea`. -/
structure ValueArea where
  high : ℚ
  low : ℚ
  poc : ℚ
  volume_at_poc : ℚ
deriving DecidableEq, Repr

/-- src/models.py `FootprintCandle` (the `levels` dict is kept as a list in
insertion order, keys unique by construction; see the header note on `low`). -/
structure FootprintCandle where
  timestamp : ℤ
  open_price : ℚ
  high : ℚ := 0
  low : ℚ
  close : ℚ := 0
  levels : List FootprintLevel := []
  total_bid : ℚ := 0
  total_ask : ℚ := 0
  total_trades : ℕ := 0
deriving DecidableEq, Repr

/-- src/models.py `FootprintCandle.delta = total_ask - total_bid`. -/
def FootprintCandle.delta (c : FootprintCandle) : ℚ := c.total_ask - c.total_bid

/-- src/models.py `FootprintCandle.total_volume = total_bid + total_ask`. -/
def FootprintCandle.total_volume (c : FootprintCandle) : ℚ := c.total_bid + c.total_ask

/-- Python `max(xs)` over a nonempty list (junk value 0 on `[]`, where the
source would raise). -/
def listMax : List ℚ → ℚ
  | [] => 0
  | x :: xs => xs.foldl max x

/-- Python `min(xs)` over a nonempty list (junk value 0 on `[]`). -/
def listMin : List ℚ → ℚ
  | [] => 0
  | x :: xs => xs.foldl min x

/-- Python `max(levels, key=total_volume)`: keeps the first of the tied
maxima in iteration (= insertion) order. -/
def pyMaxByVolume : List FootprintLevel → Option FootprintLevel
  | [] => none
  | x :: xs =>
      some (xs.foldl (fun b l => if l.total_volume > b.total_volume then l else b) x)

/-- src/models.py `FootprintCandle.poc`: price of the max-volume level,
`close` when the level map is empty. -/
def FootprintCandle.poc (c : FootprintCandle) : ℚ :=
  match pyMaxByVolume c.levels with
  | none => c.close
  | some l => l.price

/-- Python `sorted(levels, key=total_volume, reverse=True)`: a stable
descending sort by total volume (`mergeSort` is stable). -/
def sortedByVolumeDesc (ls : List FootprintLevel) : List FootprintLevel :=
  ls.mergeSort (fun a b => decide (a.total_volume ≥ b.total_volume))

/-- The accumulation loop of src/models.py `FootprintCandle.get_value_area`
(lines 128-132): starting from the POC's volume and price, add sorted levels
until the accumulated volume reaches the target; returns the accumulated
volume and the included prices. -/
def vaScan (target : ℚ) : List FootprintLevel → ℚ → List ℚ → ℚ × List ℚ
  | [], acc, incl => (acc, incl)
  | l :: rest, acc, incl =>
      if acc ≥ target then (acc, incl)
      else vaScan target rest (acc + l.total_volume) (incl ++ [l.price])

/-- src/models.py `FootprintCandle.get_value_area`. -/
def FootprintCandle.get_value_area (c : FootprintCandle) (pct : ℚ) : ValueArea :=
  match sortedByVolumeDesc c.levels with
  | [] => { high := c.close, low := c.close, poc := c.close, volume_at_poc := 0 }
  | pocL :: rest =>
      let target := c.total_volume * pct
      let scan := vaScan target rest pocL.total_volume [pocL.price]
      { high := listMax scan.2, low := listMin scan.2,
        poc := pocL.price, volume_at_poc := pocL.total_volume }

/-- The accumulated volume of the included value-area levels (the `accumulated`
variable of `get_value_area` at the end of its loop); 0 for an empty map. -/
def FootprintCandle.value_area_volume (c : FootprintCandle) (pct : ℚ) : ℚ :=
  match sortedByVolumeDesc c.levels with
  | [] => 0
  | pocL :: rest => (vaScan (c.total_volume * pct) rest pocL.total_volume [pocL.price]).1

/-- `collections.deque(maxlen=cap)`: append, evicting from the front at
capacity. -/
def pushCap {α : Type} (cap : ℕ) (xs : List α) (x : α) : List α :=
  let ys := xs ++ [x]
  ys.drop (ys.length - cap)

/-- Python `xs[-n:]` (for `n = 0` this is `xs[0:]`, the whole list). -/
def pySliceLast {α : Type} (n : ℕ) (xs : List α) : List α :=
  if n = 0 then xs else xs.drop (xs.length - n)

/-- src/footprint_engine.py `FootprintEngine` state: per-symbol scale and
candle period plus the mutable engine state (deques have capacity 500). -/
structure EngineState where
  scale : ℚ
  candle_ms : ℤ
  current_candle : Option FootprintCandle := none
  completed_candles : List FootprintCandle := []
  cumulative_delta : ℚ := 0
  cvd_history : List ℚ := []
deriving DecidableEq, Repr

/-- src/footprint_engine.py `_price_to_level`: `floor(price / scale) * scale`. -/
def priceToLevel (scale price : ℚ) : ℚ := (Int.floor (price / scale) : ℚ) * scale

/-- src/footprint_engine.py `_candle_start`: `(timestamp // candle_ms) * candle_ms`. -/
def candleStart (candle_ms ts : ℤ) : ℤ := ts.fdiv candle_ms * candle_ms

/-- A fresh candle, src/footprint_engine.py lines 42/45:
`FootprintCandle(timestamp=candle_ts, open=tick.price)` (see the header note:
`low` is seeded with the opening price instead of `float("inf")`). -/
def newCandle (ts : ℤ) (openP : ℚ) : FootprintCandle :=
  { timestamp := ts, open_price := openP, low := openP }

/-- The per-level update of src/footprint_engine.py `_add_tick_to_candle`
(lines 57-64): bump the trade count and the aggressor side's volume. -/
def bumpLevel (t : RawTick) (l : FootprintLevel) : FootprintLevel :=
  if t.is_buy then
    { l with trades := l.trades + 1, ask_volume := l.ask_volume + t.quantity }
  else
    { l with trades := l.trades + 1, bid_volume := l.bid_volume + t.quantity }

/-- Dict update of src/footprint_engine.py lines 54-64: create the level keyed
by `key` if absent (appending it in insertion order), then bump it. -/
def updateLevels (key : ℚ) (t : RawTick) : List FootprintLevel → List FootprintLevel
  | [] => [bumpLevel t { price := key }]
  | l :: ls => if l.price = key then bumpLevel t l :: ls else l :: updateLevels key t ls

/-- src/footprint_engine.py `_add_tick_to_candle`. -/
def addTickToCandle (scale : ℚ) (c : FootprintCandle) (t : RawTick) : FootprintCandle :=
  let key := priceToLevel scale t.price
  let c1 : FootprintCandle :=
    { c with
      levels := updateLevels key t c.levels,
      total_ask := if t.is_buy then c.total_ask + t.quantity else c.total_ask,
      total_bid := if t.is_buy then c.total_bid else c.total_bid + t.quantity,
      total_trades := c.total_trades + 1,
      close := t.price }
  let c2 := if t.price > c1.high then { c1 with high := t.price } else c1
  if t.price < c2.low then { c2 with low := t.price } else c2

/-- src/footprint_engine.py `_close_candle` (lines 74-84): fold the closing
candle's delta into the cumulative delta and append to the bounded histories. -/
def closeCandle (s : EngineState) (cur : FootprintCandle) : EngineState :=
  let cd := s.cumulative_delta + cur.delta
  { s with
    cumulative_delta := cd,
    cvd_history := pushCap 500 s.cvd_history cd,
    completed_candles := pushCap 500 s.completed_candles cur }

/-- src/footprint_engine.py `process_tick` (lines 33-48). -/
def processTick (s : EngineState) (t : RawTick) : Option FootprintCandle × EngineState :=
  let cts := candleStart s.candle_ms t.timestamp
  match s.current_candle with
  | none =>
      (none, { s with current_candle := some (addTickToCandle s.scale (newCandle cts t.price) t) })
  | some cur =>
      if cts > cur.timestamp then
        let s1 := closeCandle s cur
        (some cur,
         { s1 with current_candle := some (addTickToCandle s.scale (newCandle cts t.price) t) })
      else
        (none, { s with current_candle := some (addTickToCandle s.scale cur t) })

/-- Fold a tick stream through the engine, discarding the returned candles. -/
def runTicks (s : EngineState) (ts : List RawTick) : EngineState :=
  ts.foldl (fun a t => (processTick a t).2) s

/-- Direction tag of an exhaustion event (`"bull"` / `"bear"` in the source). -/
inductive ExhaustDir | bull | bear
deriving DecidableEq, Repr

/-- The dict returned by src/footprint_engine.py `detect_exhaustion`. -/
structure ExhaustEvent where
  direction : ExhaustDir
  delta_quot : ℚ
  range_quot : ℚ
  price : ℚ
  strength : ℚ
deriving DecidableEq, Repr

/-- src/footprint_engine.py `detect_exhaustion` (lines 171-205).  The source
divides by `len(prior)`; for `lookback = 0` the slice `[-0:]` is the whole
list (see `pySliceLast`), and an empty `prior` (only possible for
`lookback ≤ 1`) makes the averages `0/0 = 0` here where Python would raise —
the engine only calls this with `lookback = 5`. -/
def detectExhaustion (s : EngineState) (lookback : ℕ) : Option ExhaustEvent :=
  if s.completed_candles.length < lookback + 1 then none
  else
    let recent := pySliceLast lookback s.completed_candles
    match recent.getLast? with
    | none => none
    | some latest =>
        let prior := recent.dropLast
        let avg_delta := (prior.map (fun c => |c.delta|)).sum / prior.length
        let avg_range := (prior.map (fun c => c.high - c.low)).sum / prior.length
        let latest_range := latest.high - latest.low
        if avg_delta = 0 ∨ avg_range = 0 then none
        else
          let delta_quot := |latest.delta| / avg_delta
          let range_quot := latest_range / avg_range
          if delta_quot > 3/2 ∧ range_quot < 1/2 then
            some { direction := if latest.delta > 0 then .bull else .bear,
                   delta_quot := delta_quot, range_quot := range_quot,
                   price := latest.close,
                   strength := min (delta_quot / range_quot * 20) 100 }
          else none

/-- src/footprint_engine.py `get_last_n_candles`: `list(completed)[-n:]`. -/
def getLastNCandles (s : EngineState) (n : ℕ) : List FootprintCandle :=
  pySliceLast n s.completed_candles

/-- src/regime_detector.py `MarketRegime`. -/
inductive MarketRegime
  | trending_up | trending_down | ranging | volatile | low_volume
deriving DecidableEq, Repr

/-- One row of src/regime_detector.py `REGIME_STRATEGY_MAP`. -/
structure RegimeGuidance where
  favor : Option String
  avoid : String
  size_mult : ℚ
deriving DecidableEq, Repr

/-- src/regime_detector.py `REGIME_STRATEGY_MAP`. -/
def regimeGuidance : MarketRegime → RegimeGuidance
  | .trending_up => { favor := some "breakout", avoid := "poc_reversion", size_mult := 1 }
  | .trending_down => { favor := some "breakout", avoid := "poc_reversion", size_mult := 1 }
  | .ranging => { favor := some "poc_reversion", avoid := "breakout", size_mult := 4/5 }
  | .volatile => { favor := some "reversal", avoid := "breakout", size_mult := 1/2 }
  | .low_volume => { favor := none, avoid := "all", size_mult := 0 }

/-- src/regime_detector.py `RegimeDetector` state (`_regimes` has capacity 100;
`current_regime` starts as `ranging`). -/
structure RegimeState where
  lookback : ℕ := 20
  regimes : List MarketRegime := []
  current_regime : MarketRegime := .ranging
deriving DecidableEq, Repr

/-- src/regime_detector.py `_calc_volatility`, squared.  The source returns
`sqrt(variance)` and `_classify` compares it with `0.008`; since both sides
are nonnegative and squaring is strictly monotone there, we keep the variance
and compare with `0.008²` in `classifyRegime`, which decides the same
predicate without leaving `ℚ`. -/
def calcVolatilitySq (candles : List FootprintCandle) : ℚ :=
  if candles.length < 2 then 0
  else
    let returns := (candles.zip candles.tail).filterMap
      (fun p => if p.1.close > 0 then some ((p.2.close - p.1.close) / p.1.close) else none)
    if returns = [] then 0
    else
      let mean := returns.sum / returns.length
      (returns.map (fun r => (r - mean) ^ 2)).sum / returns.length

/-- src/regime_detector.py `_calc_trend_strength`: least-squares slope of the
closes over index, normalized by the mean close. -/
def calcTrendStrength (candles : List FootprintCandle) : ℚ :=
  if candles.length < 5 then 0
  else
    let closes := candles.map (·.close)
    let n : ℚ := closes.length
    let x_mean := (n - 1) / 2
    let y_mean := closes.sum / n
    let numer := (((List.range closes.length).zip closes).map
      (fun p => ((p.1 : ℚ) - x_mean) * (p.2 - y_mean))).sum
    let denom := ((List.range closes.length).map (fun i => ((i : ℚ) - x_mean) ^ 2)).sum
    if denom = 0 then 0
    else
      let slope := numer / denom
      if y_mean ≠ 0 then slope / y_mean else 0

/-- src/regime_detector.py `_calc_volume_health`: mean volume of the last 3
candles over the window mean. -/
def calcVolumeHealth (candles : List FootprintCandle) : ℚ :=
  if candles.length < 3 then 1
  else
    let volumes := candles.map (·.total_volume)
    let avg_vol := volumes.sum / volumes.length
    let recent_avg := (pySliceLast 3 volumes).sum / 3
    if avg_vol > 0 then recent_avg / avg_vol else 1

/-- src/regime_detector.py `_classify` (lines 97-110); the `candles` argument
of the source is unused there and dropped; volatility is compared squared
(see `calcVolatilitySq`). -/
def classifyRegime (volatilitySq trend vol_health : ℚ) : MarketRegime :=
  if vol_health < 3/10 then .low_volume
  else if volatilitySq > (8/1000) ^ 2 then .volatile
  else if |trend| > 5/10000 then
    (if trend > 0 then .trending_up else .trending_down)
  else .ranging

/-- src/regime_detector.py `analyze`: returns the regime and the updated
detector state.  With fewer than 5 candles the source returns `ranging`
without touching the state. -/
def analyzeRegime (st : RegimeState) (candles : List FootprintCandle) :
    MarketRegime × RegimeState :=
  if candles.length < 5 then (.ranging, st)
  else
    let recent := pySliceLast (min st.lookback candles.length) candles
    let regime := classifyRegime (calcVolatilitySq recent) (calcTrendStrength recent)
      (calcVolumeHealth recent)
    (regime, { st with current_regime := regime, regimes := pushCap 100 st.regimes regime })

/-- src/regime_detector.py `should_trade`: `size_mult > 0` for the current
regime's guidance. -/
def shouldTrade (st : RegimeState) : Bool :=
  decide ((regimeGuidance st.current_regime).size_mult > 0)

/-- src/liquidity_sweep.py swing point dicts `{"price", "index", "timestamp"}`. -/
structure Swing where
  price : ℚ
  index : ℕ
  timestamp : ℤ
deriving DecidableEq, Repr

/-- src/liquidity_sweep.py `LiquiditySweepDetector` state (`_swing_highs` and
`_swing_lows` are deques of capacity 50). -/
structure SweepState where
  swing_lookback : ℕ := 10
  min_sweep_pct : ℚ := 1/20
  swing_highs : List Swing := []
  swing_lows : List Swing := []
deriving DecidableEq, Repr

/-- The scan of src/liquidity_sweep.py `update_swings` (lines 30-39): slide a
5-candle window over the list; the center index `i` runs from 2 to
`len - 3`; a strict 2-each-side extremum is appended (capacity 50). -/
def swingPass (highs lows : List Swing) (i : ℕ) :
    List FootprintCandle → List Swing × List Swing
  | l2 :: l1 :: c :: r1 :: r2 :: rest =>
      let highs' :=
        if c.high > l1.high ∧ c.high > l2.high ∧ c.high > r1.high ∧ c.high > r2.high
        then pushCap 50 highs ⟨c.high, i, c.timestamp⟩ else highs
      let lows' :=
        if c.low < l1.low ∧ c.low < l2.low ∧ c.low < r1.low ∧ c.low < r2.low
        then pushCap 50 lows ⟨c.low, i, c.timestamp⟩ else lows
      swingPass highs' lows' (i + 1) (l1 :: c :: r1 :: r2 :: rest)
  | _ => (highs, lows)

/-- src/liquidity_sweep.py `update_swings` (lines 22-39): with fewer than 5
candles it returns without touching the state; otherwise it clears both
deques and recomputes them from the window. -/
def updateSwings (st : SweepState) (candles : List FootprintCandle) : SweepState :=
  if candles.length < 5 then st
  else
    let scan := swingPass [] [] 2 candles
    { st with swing_highs := scan.1, swing_lows := scan.2 }

/-- Kind tag of a sweep event (`"stop_hunt_bear"` / `"stop_hunt_bull"`). -/
inductive SweepKind | stop_hunt_bear | stop_hunt_bull
deriving DecidableEq, Repr

/-- The dicts returned by src/liquidity_sweep.py `detect` (the `wick_high` /
`wick_low` field is `wick` here). -/
structure SweepEvent where
  kind : SweepKind
  level : ℚ
  wick : ℚ
  sweep_pct : ℚ
  rejection : ℚ
  strength : ℚ
deriving DecidableEq, Repr

/-- src/liquidity_sweep.py `detect` (lines 41-86). -/
def sweepDetect (st : SweepState) (candle : FootprintCandle)
    (prev_candle : Option FootprintCandle) : List SweepEvent :=
  match prev_candle with
  | none => []
  | some prev =>
      let bears := st.swing_highs.filterMap (fun sw =>
        let level := sw.price
        if candle.high > level ∧ candle.close < level ∧ prev.close < level then
          let sweep_size := (candle.high - level) / level * 100
          if sweep_size ≥ st.min_sweep_pct then
            let rejection := (candle.high - candle.close) /
              max (candle.high - candle.low) (1/100) * 100
            some { kind := .stop_hunt_bear, level := level, wick := candle.high,
                   sweep_pct := sweep_size, rejection := rejection,
                   strength := min (sweep_size * 200 + rejection * (1/2)) 100 }
          else none
        else none)
      let bulls := st.swing_lows.filterMap (fun sw =>
        let level := sw.price
        if candle.low < level ∧ candle.close > level ∧ prev.close > level then
          let sweep_size := (level - candle.low) / level * 100
          if sweep_size ≥ st.min_sweep_pct then
            let rejection := (candle.close - candle.low) /
              max (candle.high - candle.low) (1/100) * 100
            some { kind := .stop_hunt_bull, level := level, wick := candle.low,
                   sweep_pct := sweep_size, rejection := rejection,
                   strength := min (sweep_size * 200 + rejection * (1/2)) 100 }
          else none
        else none)
      bears ++ bulls

/-- src/models.py `Side`. -/
inductive Side | buy | sell
deriving DecidableEq, Repr

/-- src/models.py `SignalType`. -/
inductive SignalType
  | stacked_imbalance_buy | stacked_imbalance_sell
  | delta_divergence_bull | delta_divergence_bear
  | absorption_support | absorption_resistance
  | exhaustion_bull | exhaustion_bear
  | cvd_confirms_up | cvd_confirms_down
  | poc_magnet_long | poc_magnet_short
deriving DecidableEq, Repr

/-- src/models.py `StrategyType`. -/
inductive StrategyType | reversal | breakout | poc_reversion
deriving DecidableEq, Repr

/-- src/models.py `OrderFlowSignal`. -/
structure OrderFlowSignal where
  type : SignalType
  strength : ℚ
  price : ℚ
  timestamp : ℤ
  description : String := ""
deriving DecidableEq, Repr

/-- src/models.py `TradeSignal` (the source defaults `timestamp` to the wall
clock; callers here always know it is irrelevant, so it defaults to 0). -/
structure TradeSignal where
  side : Side
  strategy : StrategyType
  entry_price : ℚ
  stop_loss : ℚ
  take_profit : ℚ
  confluence_score : ℚ
  signals : List OrderFlowSignal := []
  timestamp : ℤ := 0
deriving DecidableEq, Repr

/-- src/strategy_engine.py `BULLISH_SIGNALS`. -/
def bullishSignals : List SignalType :=
  [.stacked_imbalance_buy, .delta_divergence_bull, .absorption_support,
   .exhaustion_bear, .cvd_confirms_up, .poc_magnet_long]

/-- src/strategy_engine.py `BEARISH_SIGNALS`. -/
def bearishSignals : List SignalType :=
  [.stacked_imbalance_sell, .delta_divergence_bear, .absorption_resistance,
   .exhaustion_bull, .cvd_confirms_down, .poc_magnet_short]

/-- src/strategy_engine.py `SIGNAL_WEIGHTS`. -/
def signalWeight : SignalType → ℚ
  | .stacked_imbalance_buy => 13/10
  | .stacked_imbalance_sell => 13/10
  | .delta_divergence_bull => 12/10
  | .delta_divergence_bear => 12/10
  | .absorption_support => 11/10
  | .absorption_resistance => 11/10
  | .exhaustion_bull => 1
  | .exhaustion_bear => 1
  | .cvd_confirms_up => 8/10
  | .cvd_confirms_down => 8/10
  | .poc_magnet_long => 7/10
  | .poc_magnet_short => 7/10

/-- All 12 signal types, for `max(SIGNAL_WEIGHTS.values())`. -/
def allSignalTypes : List SignalType :=
  [.stacked_imbalance_buy, .stacked_imbalance_sell,
   .delta_divergence_bull, .delta_divergence_bear,
   .absorption_support, .absorption_resistance,
   .exhaustion_bull, .exhaustion_bear,
   .cvd_confirms_up, .cvd_confirms_down,
   .poc_magnet_long, .poc_magnet_short]

/-- src/strategy_engine.py `StrategyEngine` state: the configured minimum
confluence score and the footprint engine's completed-candle history (the
only part of the engine `_compute_sl_tp` reads). -/
structure StrategyState where
  min_score : ℚ
  completed : List FootprintCandle := []
deriving DecidableEq, Repr

/-- src/strategy_engine.py `_compute_directional_score` (lines 71-89). -/
def computeDirectionalScore (signals : List OrderFlowSignal)
    (valid_types : List SignalType) : ℚ :=
  let relevant := signals.filter (fun s => valid_types.contains s.type)
  if relevant.length < 2 then 0
  else
    let unique_types := (relevant.map (·.type)).dedup.length
    if unique_types < 2 then 0
    else
      let weighted_sum := (relevant.map (fun s => s.strength * signalWeight s.type)).sum
      let avg_weighted := weighted_sum / relevant.length
      let max_single := 100 * listMax (allSignalTypes.map signalWeight)
      let base_score := avg_weighted / max_single * 70
      let confluence_bonus := min (((unique_types : ℚ) - 1) * 12) 30
      min (base_score + confluence_bonus) 100

/-- src/strategy_engine.py `_classify_strategy` (lines 133-164); the `side`
argument is unused by the source body and kept for shape. -/
def classifyStrategy (signals : List OrderFlowSignal) (_side : Side) : StrategyType :=
  let types := signals.map (·.type)
  let has_absorption := types.contains .absorption_support ∨ types.contains .absorption_resistance
  let has_divergence := types.contains .delta_divergence_bull ∨ types.contains .delta_divergence_bear
  let has_exhaustion := types.contains .exhaustion_bull ∨ types.contains .exhaustion_bear
  let has_imbalance := types.contains .stacked_imbalance_buy ∨ types.contains .stacked_imbalance_sell
  let has_cvd := types.contains .cvd_confirms_up ∨ types.contains .cvd_confirms_down
  let has_poc := types.contains .poc_magnet_long ∨ types.contains .poc_magnet_short
  if has_absorption ∨ has_divergence ∨ has_exhaustion then .reversal
  else if has_imbalance ∧ (has_cvd ∨ has_poc) then .reversal
  else if has_imbalance then .breakout
  else if has_poc then .poc_reversion
  else .reversal

/-- Python `round(x)` to an integer: round half to even (banker's rounding). -/
def roundHalfEven (y : ℚ) : ℤ :=
  let f := ⌊y⌋
  let r := y - f
  if r < 1/2 then f
  else if r > 1/2 then f + 1
  else if Even f then f else f + 1

/-- Python `round(x, 2)`: round to the nearest multiple of `1/100`, ties to
even (exact-decimal idealization of the float behaviour). -/
def pyRound2 (x : ℚ) : ℚ := (roundHalfEven (x * 100) : ℚ) / 100

/-- The ATR proxy of src/strategy_engine.py `_compute_sl_tp` (lines 170-177):
mean positive range of the last ≤ 10 candles, falling back to the current
candle's range and then to `0.2%` of the close. -/
def atrProxy (completed : List FootprintCandle) (candle : FootprintCandle) : ℚ :=
  let recent := pySliceLast 10 completed
  let raw :=
    if 3 ≤ recent.length then
      let ranges := (recent.map (fun c => c.high - c.low)).filter (fun r => r > 0)
      if ranges ≠ [] then ranges.sum / ranges.length else candle.close * (2/1000)
    else candle.high - candle.low
  if raw = 0 then candle.close * (2/1000) else raw

/-- The unrounded stop/target distances of src/strategy_engine.py
`_compute_sl_tp` (lines 179-189), by strategy archetype. -/
def slTpDistances (completed : List FootprintCandle) (candle : FootprintCandle)
    (strategy : StrategyType) : ℚ × ℚ :=
  let va := candle.get_value_area (7/10)
  let atr := atrProxy completed candle
  match strategy with
  | .reversal => (atr * (12/10), atr * 2)
  | .breakout => (atr * (8/10), atr * (25/10))
  | .poc_reversion => (atr, max (|candle.close - va.poc|) (atr * (15/10)))

/-- src/strategy_engine.py `_compute_sl_tp` (lines 166-198): stop/target
around the close, rounded to 2 decimals. -/
def computeSlTp (completed : List FootprintCandle) (candle : FootprintCandle)
    (side : Side) (strategy : StrategyType) : ℚ × ℚ :=
  let d := slTpDistances completed candle strategy
  match side with
  | .buy => (pyRound2 (candle.close - d.1), pyRound2 (candle.close + d.2))
  | .sell => (pyRound2 (candle.close + d.1), pyRound2 (candle.close - d.2))

/-- src/strategy_engine.py `_build_long_signal` (lines 91-110). -/
def buildLongSignal (st : StrategyState) (candle : FootprintCandle)
    (signals : List OrderFlowSignal) (score : ℚ) : TradeSignal :=
  let strategy := classifyStrategy signals .buy
  let sltp := computeSlTp st.completed candle .buy strategy
  { side := .buy, strategy := strategy, entry_price := candle.close,
    stop_loss := sltp.1, take_profit := sltp.2, confluence_score := score,
    signals := signals.filter (fun s => bullishSignals.contains s.type) }

/-- src/strategy_engine.py `_build_short_signal` (lines 112-131). -/
def buildShortSignal (st : StrategyState) (candle : FootprintCandle)
    (signals : List OrderFlowSignal) (score : ℚ) : TradeSignal :=
  let strategy := classifyStrategy signals .sell
  let sltp := computeSlTp st.completed candle .sell strategy
  { side := .sell, strategy := strategy, entry_price := candle.close,
    stop_loss := sltp.1, take_profit := sltp.2, confluence_score := score,
    signals := signals.filter (fun s => bearishSignals.contains s.type) }

/-- src/strategy_engine.py `evaluate` (lines 54-69). -/
def evaluate (st : StrategyState) (candle : FootprintCandle)
    (signals : List OrderFlowSignal) : Option TradeSignal :=
  if signals = [] then none
  else
    let bull_score := computeDirectionalScore signals bullishSignals
    let bear_score := computeDirectionalScore signals bearishSignals
    if bull_score ≥ st.min_score ∧ bull_score > bear_score then
      some (buildLongSignal st candle signals bull_score)
    else if bear_score ≥ st.min_score ∧ bear_score > bull_score then
      some (buildShortSignal st candle signals bear_score)
    else none

/-- The engine configured at scale 1 with 1-minute (60000 ms) candles. -/
def w1State : EngineState := { scale := 1, candle_ms := 60000 }

def w1Tick0 : RawTick := ⟨0, 100, 2, false⟩

def w1Tick1 : RawTick := ⟨60000, 101, 1, true⟩

/-- The engine state after the opening tick `w1Tick0`. -/
def w1S1 : EngineState := (processTick w1State w1Tick0).2

def levelsBid (ls : List FootprintLevel) : ℚ := (ls.map (·.bid_volume)).sum

def levelsAsk (ls : List FootprintLevel) : ℚ := (ls.map (·.ask_volume)).sum

def levelsTrades (ls : List FootprintLevel) : ℕ := (ls.map (·.trades)).sum

/-- A candle's aggregate fields agree with the sums over its levels. -/
def candleConsistent (c : FootprintCandle) : Prop :=
  c.total_bid = levelsBid c.levels ∧ c.total_ask = levelsAsk c.levels ∧
    c.total_trades = levelsTrades c.levels

/-- Every candle the engine holds (current and closed) is consistent. -/
def engineConsistent (s : EngineState) : Prop :=
  (∀ c, s.current_candle = some c → candleConsistent c) ∧
    (∀ c ∈ s.completed_candles, candleConsistent c)

/-- Python dict lookup `levels[k]` (first — and by construction only — entry
with price `k`). -/
def levelLookup (k : ℚ) (ls : List FootprintLevel) : Option FootprintLevel :=
  ls.find? (fun l => decide (l.price = k))

/-- A candle whose two levels tie at total volume 5, the higher price having
been inserted first (as when the first tick of the bucket trades at 100 and a
later one at 50). -/
def c6Candle : FootprintCandle :=
  { timestamp := 0, open_price := 100, low := 50, close := 60,
    levels := [⟨100, 5, 0, 1⟩, ⟨50, 5, 0, 1⟩],
    total_bid := 10, total_ask := 0, total_trades := 2 }

/-- A consistent two-level candle for the C3 witness. -/
def c3Candle : FootprintCandle :=
  { timestamp := 0, open_price := 100, low := 100, close := 101,
    levels := [⟨100, 2, 3, 2⟩, ⟨101, 1, 0, 1⟩],
    total_bid := 3, total_ask := 3, total_trades := 3 }

def c7Candle (bid ask : ℚ) : FootprintCandle :=
  { timestamp := 0, open_price := 1, high := 1, low := 1, close := 1,
    levels := [], total_bid := bid, total_ask := ask, total_trades := 1 }

/-- A 5-candle window whose last three candles have zero volume: volume
health 0 < 0.3. -/
def c7Window : List FootprintCandle :=
  [c7Candle 5 5, c7Candle 5 5, c7Candle 0 0, c7Candle 0 0, c7Candle 0 0]

/-- A detector that still holds a stale swing high at 100. -/
def c8A : SweepState :=
  { swing_lookback := 10, min_sweep_pct := 1/20, swing_highs := [⟨100, 2, 0⟩] }

/-- A detector with no prior swing state. -/
def c8B : SweepState := { swing_lookback := 10, min_sweep_pct := 1/20 }

/-- A candle that wicks to 101 and closes back at 99.9. -/
def c8Candle : FootprintCandle :=
  { timestamp := 60000, open_price := 100, high := 101, low := 99, close := 999/10,
    levels := [], total_bid := 0, total_ask := 0, total_trades := 0 }

def c8Prev : FootprintCandle :=
  { timestamp := 0, open_price := 99, high := 100, low := 99, close := 99,
    levels := [], total_bid := 0, total_ask := 0, total_trades := 0 }

/-- A 5-candle window for the C8 witness. -/
def c8Window : List FootprintCandle := [c8Prev, c8Prev, c8Prev, c8Prev, c8Prev]

/-- Engine with 10 ms buckets for compact exhaustion scenarios. -/
def exBase : EngineState := { scale := 1, candle_ms := 10 }

/-- Six candles: the first with |delta| 100 and range 10, four with |delta| 1
and range 10, the latest with delta 10 and range 1, plus a closing tick. -/
def exTicks : List RawTick :=
  [⟨0, 100, 100, false⟩, ⟨1, 110, 0, false⟩,
   ⟨10, 100, 1, false⟩, ⟨11, 110, 0, false⟩,
   ⟨20, 100, 1, false⟩, ⟨21, 110, 0, false⟩,
   ⟨30, 100, 1, false⟩, ⟨31, 110, 0, false⟩,
   ⟨40, 100, 1, false⟩, ⟨41, 110, 0, false⟩,
   ⟨50, 100, 10, false⟩, ⟨51, 101, 0, false⟩,
   ⟨60, 100, 1, false⟩]

def exState : EngineState := runTicks exBase exTicks

/-- The shape of the first five closed candles of `exTicks` (two buys, the
second of quantity 0 at 110 to set the range). -/
def exC (b : ℤ) (q : ℚ) : FootprintCandle :=
  { timestamp := b, open_price := 100, high := 110, low := 100, close := 110,
    levels := [⟨100, 0, q, 1⟩, ⟨110, 0, 0, 1⟩],
    total_bid := 0, total_ask := q, total_trades := 2 }

/-- The sixth closed candle of `exTicks`: delta 10, range 1. -/
def exC5 : FootprintCandle :=
  { timestamp := 50, open_price := 100, high := 101, low := 100, close := 101,
    levels := [⟨100, 0, 10, 1⟩, ⟨101, 0, 0, 1⟩],
    total_bid := 0, total_ask := 10, total_trades := 2 }

def c4Candle : FootprintCandle :=
  { timestamp := 0, open_price := 100, high := 101, low := 99, close := 100,
    levels := [], total_bid := 0, total_ask := 0, total_trades := 0 }

def c4State : StrategyState := { min_score := 65 }

/-- History candle with range 0.004: the ATR proxy becomes 0.004. -/
def c10Hist : FootprintCandle :=
  { timestamp := 0, open_price := 100, high := 100 + 1/250, low := 100, close := 100,
    levels := [], total_bid := 0, total_ask := 0, total_trades := 0 }

def c10State : StrategyState := { min_score := 65, completed := [c10Hist, c10Hist, c10Hist] }

/-- History candle with range 10 for the C10 witness. -/
def c10HistW : FootprintCandle :=
  { timestamp := 0, open_price := 100, high := 110, low := 100, close := 100,
    levels := [], total_bid := 0, total_ask := 0, total_trades := 0 }

def c10StateW : StrategyState := { min_score := 65, completed := [c10HistW, c10HistW, c10HistW] }

/-! ### Theorems -/

/-! ### Basic lemmas about the tick fold -/

/-- Field-level characterization of `addTickToCandle`. -/
theorem addTick_eq (sc : ℚ) (c : FootprintCandle) (t : RawTick) :
    addTickToCandle sc c t =
      { timestamp := c.timestamp, open_price := c.open_price,
        high := max c.high t.price, low := min c.low t.price, close := t.price,
        levels := updateLevels (priceToLevel sc t.price) t c.levels,
        total_bid := if t.is_buy then c.total_bid else c.total_bid + t.quantity,
        total_ask := if t.is_buy then c.total_ask + t.quantity else c.total_ask,
        total_trades := c.total_trades + 1 } := by
  unfold addTickToCandle
  cases hb : t.is_buy <;> dsimp only <;> split_ifs with h1 h2 h2 <;>
    simp_all [FootprintCandle.mk.injEq, max_eq_right, max_eq_left, min_eq_right, min_eq_left,
      le_of_lt, le_of_not_lt]

theorem addTick_open_price (sc : ℚ) (c : FootprintCandle) (t : RawTick) :
    (addTickToCandle sc c t).open_price = c.open_price := by rw [addTick_eq]

theorem addTick_timestamp (sc : ℚ) (c : FootprintCandle) (t : RawTick) :
    (addTickToCandle sc c t).timestamp = c.timestamp := by rw [addTick_eq]

theorem addTick_close (sc : ℚ) (c : FootprintCandle) (t : RawTick) :
    (addTickToCandle sc c t).close = t.price := by rw [addTick_eq]

theorem addTick_high (sc : ℚ) (c : FootprintCandle) (t : RawTick) :
    (addTickToCandle sc c t).high = max c.high t.price := by rw [addTick_eq]

theorem addTick_low (sc : ℚ) (c : FootprintCandle) (t : RawTick) :
    (addTickToCandle sc c t).low = min c.low t.price := by rw [addTick_eq]

theorem addTick_levels (sc : ℚ) (c : FootprintCandle) (t : RawTick) :
    (addTickToCandle sc c t).levels = updateLevels (priceToLevel sc t.price) t c.levels := by
  rw [addTick_eq]

/-- `process_tick` on a fresh engine: open a candle and fold the tick in. -/
theorem processTick_none (s : EngineState) (t : RawTick)
    (h : s.current_candle = none) :
    processTick s t = (none,
      { s with current_candle := some (addTickToCandle s.scale (newCandle (candleStart s.candle_ms t.timestamp) t.price) t) }) := by
  simp [processTick, h]

/-- `process_tick` across a bucket boundary: close, append, open, fold. -/
theorem processTick_roll (s : EngineState) (t : RawTick) (cur : FootprintCandle)
    (h : s.current_candle = some cur)
    (hb : candleStart s.candle_ms t.timestamp > cur.timestamp) :
    processTick s t = (some cur,
      { s with
        current_candle := some (addTickToCandle s.scale (newCandle (candleStart s.candle_ms t.timestamp) t.price) t),
        completed_candles := pushCap 500 s.completed_candles cur,
        cumulative_delta := s.cumulative_delta + cur.delta,
        cvd_history := pushCap 500 s.cvd_history (s.cumulative_delta + cur.delta) }) := by
  simp only [processTick, h, closeCandle]
  rw [if_pos hb]

/-- `process_tick` inside the current bucket: just fold the tick in. -/
theorem processTick_same (s : EngineState) (t : RawTick) (cur : FootprintCandle)
    (h : s.current_candle = some cur)
    (hb : ¬ candleStart s.candle_ms t.timestamp > cur.timestamp) :
    processTick s t =
      (none, { s with current_candle := some (addTickToCandle s.scale cur t) }) := by
  simp only [processTick, h]
  rw [if_neg hb]

/-- C1: for a tick whose bucket start strictly exceeds the open candle's
bucket start, `process_tick` closes the current candle, appends it to the
bounded history, adds its delta to the cumulative delta (CVD after the close
equals CVD before plus the returned candle's delta), returns exactly that
candle, and folds the triggering tick into the newly opened candle seeded
with the tick's price as `open`; moreover no `process_tick` call ever
rewrites an existing history entry (history only grows by `pushCap`-append
with FIFO eviction), so the returned candle value is never mutated by any
later call. -/
theorem C1_bucket_boundary_close
    (s : EngineState) (t : RawTick) (c0 : FootprintCandle)
    (hcur : s.current_candle = some c0)
    (hgt : candleStart s.candle_ms t.timestamp > c0.timestamp) :
    (processTick s t).1 = some c0 ∧
    (processTick s t).2.completed_candles = pushCap 500 s.completed_candles c0 ∧
    (processTick s t).2.cumulative_delta = s.cumulative_delta + c0.delta ∧
    (processTick s t).2.current_candle =
      some (addTickToCandle s.scale
        (newCandle (candleStart s.candle_ms t.timestamp) t.price) t) ∧
    (addTickToCandle s.scale
        (newCandle (candleStart s.candle_ms t.timestamp) t.price) t).open_price = t.price ∧
    (∀ (u : EngineState) (t' : RawTick),
      (processTick u t').2.completed_candles = u.completed_candles ∨
      ∃ c, (processTick u t').2.completed_candles = pushCap 500 u.completed_candles c) := by
  refine ⟨?_, ?_, ?_, ?_, ?_, ?_⟩
  · simp [processTick, hcur, hgt]
  · simp [processTick, hcur, hgt, closeCandle]
  · simp [processTick, hcur, hgt, closeCandle]
  · simp [processTick, hcur, hgt]
  · rw [addTick_open_price]; rfl
  · intro u t'
    rcases h : u.current_candle with _ | cur
    · left; simp [processTick, h]
    · by_cases hb : candleStart u.candle_ms t'.timestamp > cur.timestamp
      · right; exact ⟨cur, by simp [processTick, h, hb, closeCandle]⟩
      · left; simp [processTick, h, hb]

/-- Witness for C1: the second tick lands in the next bucket and returns the
first candle, adding its delta to the CVD. -/
theorem C1_bucket_boundary_close_witness :
    ∃ c0, w1S1.current_candle = some c0 ∧
      candleStart w1S1.candle_ms w1Tick1.timestamp > c0.timestamp ∧
      (processTick w1S1 w1Tick1).1 = some c0 ∧
      (processTick w1S1 w1Tick1).2.cumulative_delta = w1S1.cumulative_delta + c0.delta := by
  have hcur : w1S1.current_candle =
      some (addTickToCandle 1 (newCandle (candleStart 60000 0) 100) w1Tick0) := rfl
  have hgt : candleStart w1S1.candle_ms w1Tick1.timestamp >
      (addTickToCandle 1 (newCandle (candleStart 60000 0) 100) w1Tick0).timestamp := by
    rw [addTick_timestamp]
    show candleStart 60000 60000 > (newCandle (candleStart 60000 0) 100).timestamp
    decide
  obtain ⟨h1, _, h3, _⟩ := C1_bucket_boundary_close w1S1 w1Tick1 _ hcur hgt
  exact ⟨_, hcur, hgt, h1, h3⟩

/-! ### C9: aggregate totals match the level sums -/

theorem updateLevels_bid_sum (k : ℚ) (t : RawTick) (ls : List FootprintLevel) :
    levelsBid (updateLevels k t ls) =
      levelsBid ls + (if t.is_buy then 0 else t.quantity) := by
  induction ls with
  | nil => cases hb : t.is_buy <;> simp [updateLevels, levelsBid, bumpLevel, hb]
  | cons l ls ih =>
      by_cases hk : l.price = k
      · cases hb : t.is_buy <;>
          simp [updateLevels, hk, levelsBid, bumpLevel, hb] <;> ring
      · simp only [updateLevels, hk, if_false, levelsBid, List.map_cons, List.sum_cons]
        simp only [levelsBid] at ih
        rw [ih]; ring

theorem updateLevels_ask_sum (k : ℚ) (t : RawTick) (ls : List FootprintLevel) :
    levelsAsk (updateLevels k t ls) =
      levelsAsk ls + (if t.is_buy then t.quantity else 0) := by
  induction ls with
  | nil => cases hb : t.is_buy <;> simp [updateLevels, levelsAsk, bumpLevel, hb]
  | cons l ls ih =>
      by_cases hk : l.price = k
      · cases hb : t.is_buy <;>
          simp [updateLevels, hk, levelsAsk, bumpLevel, hb] <;> ring
      · simp only [updateLevels, hk, if_false, levelsAsk, List.map_cons, List.sum_cons]
        simp only [levelsAsk] at ih
        rw [ih]; ring

theorem updateLevels_trades_sum (k : ℚ) (t : RawTick) (ls : List FootprintLevel) :
    levelsTrades (updateLevels k t ls) = levelsTrades ls + 1 := by
  induction ls with
  | nil => cases hb : t.is_buy <;> simp [updateLevels, levelsTrades, bumpLevel, hb]
  | cons l ls ih =>
      by_cases hk : l.price = k
      · cases hb : t.is_buy <;>
          simp [updateLevels, hk, levelsTrades, bumpLevel, hb] <;> omega
      · simp only [updateLevels, hk, if_false, levelsTrades, List.map_cons, List.sum_cons]
        simp only [levelsTrades] at ih
        rw [ih]; omega

theorem candleConsistent_addTick (sc : ℚ) (c : FootprintCandle) (t : RawTick)
    (h : candleConsistent c) : candleConsistent (addTickToCandle sc c t) := by
  obtain ⟨hb, ha, ht⟩ := h
  rw [addTick_eq]
  refine ⟨?_, ?_, ?_⟩
  · show (if t.is_buy then c.total_bid else c.total_bid + t.quantity) = _
    rw [updateLevels_bid_sum, hb]; cases t.is_buy <;> simp
  · show (if t.is_buy then c.total_ask + t.quantity else c.total_ask) = _
    rw [updateLevels_ask_sum, ha]; cases t.is_buy <;> simp
  · show c.total_trades + 1 = _
    rw [updateLevels_trades_sum, ht]

theorem candleConsistent_newCandle (ts : ℤ) (p : ℚ) : candleConsistent (newCandle ts p) := by
  refine ⟨rfl, rfl, rfl⟩

theorem mem_pushCap {α : Type} {cap : ℕ} {xs : List α} {x c : α}
    (h : c ∈ pushCap cap xs x) : c ∈ xs ∨ c = x := by
  unfold pushCap at h
  have := List.mem_of_mem_drop h
  simpa using this

theorem sum_map_sub_q {α : Type} (f g : α → ℚ) (l : List α) :
    (l.map fun x => f x - g x).sum = (l.map f).sum - (l.map g).sum := by
  induction l with
  | nil => simp
  | cons x xs ih => simp [ih]; ring

theorem sum_map_add_q {α : Type} (f g : α → ℚ) (l : List α) :
    (l.map fun x => f x + g x).sum = (l.map f).sum + (l.map g).sum := by
  induction l with
  | nil => simp
  | cons x xs ih => simp [ih]; ring

/-- C9: `process_tick` preserves the invariant that for the current candle
and every closed candle, `total_bid`, `total_ask` and `total_trades` equal
the sums of the corresponding per-level fields; consequently any consistent
candle's `delta` is the sum of its levels' deltas and its `total_volume` the
sum of its levels' total volumes. -/
theorem C9_totals_invariant (s : EngineState) (t : RawTick)
    (h : engineConsistent s) :
    engineConsistent (processTick s t).2 ∧
    (∀ c : FootprintCandle, candleConsistent c →
      c.delta = (c.levels.map FootprintLevel.delta).sum ∧
      c.total_volume = (c.levels.map FootprintLevel.total_volume).sum) := by
  constructor
  · obtain ⟨hcur, hdone⟩ := h
    rcases hc : s.current_candle with _ | cur
    · rw [processTick_none s t hc]
      refine ⟨?_, ?_⟩
      · intro c hsome
        obtain rfl : addTickToCandle s.scale
            (newCandle (candleStart s.candle_ms t.timestamp) t.price) t = c := by
          simpa using hsome
        exact candleConsistent_addTick _ _ _ (candleConsistent_newCandle _ _)
      · intro c hmem
        exact hdone c hmem
    · by_cases hb : candleStart s.candle_ms t.timestamp > cur.timestamp
      · rw [processTick_roll s t cur hc hb]
        refine ⟨?_, ?_⟩
        · intro c hsome
          obtain rfl : addTickToCandle s.scale
              (newCandle (candleStart s.candle_ms t.timestamp) t.price) t = c := by
            simpa using hsome
          exact candleConsistent_addTick _ _ _ (candleConsistent_newCandle _ _)
        · intro c hmem
          rcases mem_pushCap hmem with hold | rfl
          · exact hdone c hold
          · exact hcur c hc
      · rw [processTick_same s t cur hc hb]
        refine ⟨?_, ?_⟩
        · intro c hsome
          obtain rfl : addTickToCandle s.scale cur t = c := by simpa using hsome
          exact candleConsistent_addTick _ _ _ (hcur cur hc)
        · intro c hmem
          exact hdone c hmem
  · intro c hcc
    obtain ⟨hb, ha, ht⟩ := hcc
    constructor
    · show c.total_ask - c.total_bid = _
      rw [ha, hb, levelsAsk, levelsBid, ← sum_map_sub_q]
      rfl
    · show c.total_bid + c.total_ask = _
      rw [ha, hb, levelsAsk, levelsBid, ← sum_map_add_q]
      rfl

/-- Witness for C9: the fresh engine is consistent and stays so across a
concrete tick. -/
theorem C9_totals_invariant_witness :
    engineConsistent w1State ∧
    (engineConsistent (processTick w1State w1Tick0).2 ∧
      (∀ c : FootprintCandle, candleConsistent c →
        c.delta = (c.levels.map FootprintLevel.delta).sum ∧
        c.total_volume = (c.levels.map FootprintLevel.total_volume).sum)) := by
  have h0 : engineConsistent w1State := by
    constructor
    · intro c hsome; simp [w1State] at hsome
    · intro c hmem; simp [w1State] at hmem
  exact ⟨h0, C9_totals_invariant w1State w1Tick0 h0⟩

/-! ### C2: ticks within one bucket -/

theorem bumpLevel_price (t : RawTick) (l : FootprintLevel) :
    (bumpLevel t l).price = l.price := by
  unfold bumpLevel; split <;> rfl

theorem levelLookup_updateLevels_self (k : ℚ) (t : RawTick) (ls : List FootprintLevel) :
    levelLookup k (updateLevels k t ls) =
      some (bumpLevel t ((levelLookup k ls).getD { price := k })) := by
  induction ls with
  | nil => simp [updateLevels, levelLookup, List.find?_cons, bumpLevel_price]
  | cons l ls ih =>
      by_cases hk : l.price = k
      · simp [updateLevels, hk, levelLookup, List.find?_cons, bumpLevel_price]
      · simp only [updateLevels, hk, if_false]
        simp only [levelLookup, List.find?_cons] at ih ⊢
        simp [hk, ih]

theorem levelLookup_updateLevels_other (k k' : ℚ) (t : RawTick) (ls : List FootprintLevel)
    (h : k' ≠ k) :
    levelLookup k' (updateLevels k t ls) = levelLookup k' ls := by
  have hkk : ¬ (k = k') := fun hh => h hh.symm
  induction ls with
  | nil =>
      simp [updateLevels, levelLookup, List.find?_cons, bumpLevel_price, hkk]
  | cons l ls ih =>
      by_cases hk : l.price = k
      · have hk' : l.price ≠ k' := by rw [hk]; exact fun hh => h hh.symm
        simp [updateLevels, hk, levelLookup, List.find?_cons, bumpLevel_price, hk', hkk]
      · simp only [updateLevels, hk, if_false]
        by_cases hk2 : l.price = k'
        · simp [levelLookup, List.find?_cons, hk2]
        · simp only [levelLookup, List.find?_cons] at ih ⊢
          simp [hk2, ih]

theorem foldl_addTick_high (sc : ℚ) (ts : List RawTick) (c : FootprintCandle) :
    (ts.foldl (addTickToCandle sc) c).high = ts.foldl (fun h t => max h t.price) c.high := by
  induction ts generalizing c with
  | nil => rfl
  | cons t ts ih => simp only [List.foldl_cons, ih, addTick_high]

theorem foldl_addTick_low (sc : ℚ) (ts : List RawTick) (c : FootprintCandle) :
    (ts.foldl (addTickToCandle sc) c).low = ts.foldl (fun h t => min h t.price) c.low := by
  induction ts generalizing c with
  | nil => rfl
  | cons t ts ih => simp only [List.foldl_cons, ih, addTick_low]

theorem foldl_addTick_close (sc : ℚ) (ts : List RawTick) (c : FootprintCandle) :
    (ts.foldl (addTickToCandle sc) c).close = (ts.map (·.price)).getLastD c.close := by
  induction ts generalizing c with
  | nil => rfl
  | cons t ts ih =>
      simp only [List.foldl_cons, ih, addTick_close, List.map_cons, List.getLastD_cons]

theorem foldl_max_init (l : List ℚ) (a : ℚ) : ∀ b, l.foldl max (max a b) = max a (l.foldl max b) := by
  induction l with
  | nil => intro b; rfl
  | cons x xs ih =>
      intro b
      simp only [List.foldl_cons, max_assoc, ih]

theorem le_foldl_max (l : List ℚ) : ∀ b : ℚ, b ≤ l.foldl max b := by
  induction l with
  | nil => intro b; exact le_refl b
  | cons x xs ih =>
      intro b
      exact le_trans (le_max_left b x) (ih (max b x))

/-- C2 (amended): within one bucket `process_tick` returns nothing and folds
the tick into the current candle, touching exactly the level keyed by
`floor(price/scale)*scale` (other keys unchanged, the touched one bumped on
the aggressor side); after opening a candle with a tick and folding any
sequence of ticks, `close` is the last tick's price, `low` the minimum
observed price, and — provided all tick prices are positive, since the
source initializes `high` to `0.0` — `high` is the maximum observed price. -/
theorem C2_same_bucket_fold
    : (∀ (s : EngineState) (c0 : FootprintCandle) (t : RawTick),
        s.current_candle = some c0 →
        candleStart s.candle_ms t.timestamp = c0.timestamp →
        (processTick s t).1 = none ∧
        (processTick s t).2 =
          { s with current_candle := some (addTickToCandle s.scale c0 t) } ∧
        levelLookup (priceToLevel s.scale t.price) (addTickToCandle s.scale c0 t).levels =
          some (bumpLevel t ((levelLookup (priceToLevel s.scale t.price) c0.levels).getD
            { price := priceToLevel s.scale t.price })) ∧
        (∀ k, k ≠ priceToLevel s.scale t.price →
          levelLookup k (addTickToCandle s.scale c0 t).levels = levelLookup k c0.levels)) ∧
      (∀ (sc : ℚ) (b : ℤ) (t0 : RawTick) (ts : List RawTick),
        0 < t0.price → (∀ t ∈ ts, 0 < t.price) →
        (ts.foldl (addTickToCandle sc) (addTickToCandle sc (newCandle b t0.price) t0)).high =
          listMax ((t0 :: ts).map (·.price)) ∧
        (ts.foldl (addTickToCandle sc) (addTickToCandle sc (newCandle b t0.price) t0)).low =
          listMin ((t0 :: ts).map (·.price)) ∧
        (ts.foldl (addTickToCandle sc) (addTickToCandle sc (newCandle b t0.price) t0)).close =
          ((t0 :: ts).map (·.price)).getLastD 0) := by
  constructor
  · intro s c0 t hcur heq
    have hnot : ¬ candleStart s.candle_ms t.timestamp > c0.timestamp := by
      rw [heq]; exact lt_irrefl _
    rw [processTick_same s t c0 hcur hnot]
    refine ⟨rfl, rfl, ?_, ?_⟩
    · rw [addTick_levels, levelLookup_updateLevels_self]
    · intro k hk
      rw [addTick_levels, levelLookup_updateLevels_other _ _ _ _ hk]
  · intro sc b t0 ts h0 hts
    have hhigh0 : (addTickToCandle sc (newCandle b t0.price) t0).high = max 0 t0.price := by
      rw [addTick_high]; rfl
    have hlow0 : (addTickToCandle sc (newCandle b t0.price) t0).low = t0.price := by
      rw [addTick_low]; exact min_self _
    have hclose0 : (addTickToCandle sc (newCandle b t0.price) t0).close = t0.price :=
      addTick_close _ _ _
    refine ⟨?_, ?_, ?_⟩
    · rw [foldl_addTick_high, hhigh0]
      have hmap : ts.foldl (fun h t => max h t.price) (max 0 t0.price) =
          (ts.map (·.price)).foldl max (max 0 t0.price) := by
        rw [List.foldl_map]
      rw [hmap, foldl_max_init]
      have hpos : 0 < (ts.map (·.price)).foldl max t0.price :=
        lt_of_lt_of_le h0 (le_foldl_max _ _)
      rw [max_eq_right hpos.le]
      simp [listMax, List.foldl_map]
    · rw [foldl_addTick_low, hlow0]
      simp [listMin, List.foldl_map]
    · rw [foldl_addTick_close, hclose0, List.map_cons, List.getLastD_cons]

/-- Counterexample for C2 as stated: with nonpositive tick prices the
candle's `high` stays at its `0.0` initialization and does not track the
maximum observed price.  Two sells at prices −2 then −1 land in bucket 0;
the second tick is in the open candle's bucket, `process_tick` returns
nothing, `close`/`low` are right, but `high = 0 ≠ −1 = max price`. -/
theorem C2_same_bucket_fold_counterexample :
    ∃ c0 c1, (processTick w1State ⟨0, -2, 1, true⟩).2.current_candle = some c0 ∧
      candleStart (processTick w1State ⟨0, -2, 1, true⟩).2.candle_ms (1 : ℤ) = c0.timestamp ∧
      (processTick (processTick w1State ⟨0, -2, 1, true⟩).2 ⟨1, -1, 1, true⟩).1 = none ∧
      (processTick (processTick w1State ⟨0, -2, 1, true⟩).2 ⟨1, -1, 1, true⟩).2.current_candle
        = some c1 ∧
      c1.close = -1 ∧ c1.low = -2 ∧ c1.high = 0 ∧ c1.high ≠ max (-2 : ℚ) (-1) := by
  have h0 : (processTick w1State ⟨0, -2, 1, true⟩).2.current_candle =
      some (addTickToCandle 1 (newCandle (candleStart 60000 0) (-2)) ⟨0, -2, 1, true⟩) := rfl
  have hts : (addTickToCandle 1 (newCandle (candleStart 60000 0) (-2)) ⟨0, -2, 1, true⟩).timestamp
      = (0 : ℤ) := by
    rw [addTick_timestamp]; decide
  have hbeq : candleStart (processTick w1State ⟨0, -2, 1, true⟩).2.candle_ms (1 : ℤ) =
      (addTickToCandle 1 (newCandle (candleStart 60000 0) (-2)) ⟨0, -2, 1, true⟩).timestamp := by
    rw [hts]; decide
  obtain ⟨hr1, hr2, _, _⟩ := C2_same_bucket_fold.1 _ _ ⟨1, -1, 1, true⟩ h0 hbeq
  refine ⟨addTickToCandle 1 (newCandle (candleStart 60000 0) (-2)) ⟨0, -2, 1, true⟩,
    addTickToCandle (processTick w1State ⟨0, -2, 1, true⟩).2.scale
      (addTickToCandle 1 (newCandle (candleStart 60000 0) (-2)) ⟨0, -2, 1, true⟩)
      ⟨1, -1, 1, true⟩,
    h0, hbeq, hr1, ?_, ?_, ?_, ?_, ?_⟩
  · rw [hr2]
  · rw [addTick_close]
  · rw [addTick_low, addTick_low]
    show min (min (-2 : ℚ) (-2)) (-1) = -2
    norm_num
  · rw [addTick_high, addTick_high]
    show max (max (0 : ℚ) (-2)) (-1) = 0
    norm_num
  · rw [addTick_high, addTick_high]
    show max (max (0 : ℚ) (-2)) (-1) ≠ max (-2) (-1)
    norm_num

/-- Witness for C2 (amended) at concrete inputs: a same-bucket buy tick after
`w1Tick0`, and a two-tick fold with positive prices. -/
theorem C2_same_bucket_fold_witness :
    ((processTick w1S1 ⟨2, 101, 3, false⟩).1 = none ∧
      (processTick w1S1 ⟨2, 101, 3, false⟩).2 =
        { w1S1 with current_candle := some (addTickToCandle w1S1.scale
            (addTickToCandle 1 (newCandle (candleStart 60000 0) 100) w1Tick0)
            ⟨2, 101, 3, false⟩) }) ∧
    (([⟨1, 101, 2, true⟩] : List RawTick).foldl (addTickToCandle 1)
        (addTickToCandle 1 (newCandle 0 (100 : ℚ)) ⟨0, 100, 1, false⟩)).high =
      listMax (([⟨0, 100, 1, false⟩, ⟨1, 101, 2, true⟩] : List RawTick).map (·.price)) := by
  have hcur : w1S1.current_candle =
      some (addTickToCandle 1 (newCandle (candleStart 60000 0) 100) w1Tick0) := rfl
  have hts : candleStart w1S1.candle_ms (2 : ℤ) =
      (addTickToCandle 1 (newCandle (candleStart 60000 0) 100) w1Tick0).timestamp := by
    rw [addTick_timestamp]; decide
  obtain ⟨ha1, ha2, _⟩ := C2_same_bucket_fold.1 w1S1 _ ⟨2, 101, 3, false⟩ hcur hts
  refine ⟨⟨ha1, ha2⟩, ?_⟩
  exact (C2_same_bucket_fold.2 1 0 ⟨0, 100, 1, false⟩ [⟨1, 101, 2, true⟩]
    (by norm_num) (by intro t ht; simp at ht; rw [ht]; norm_num)).1

/-! ### C6: point of control and its tie-break -/

/-- The running best of Python's `max(..., key=...)` is the first element of
`b :: xs` attaining the maximum of the key. -/
theorem foldl_maxByVol_spec (xs : List FootprintLevel) :
    ∀ b : FootprintLevel,
      ∃ pre suf,
        b :: xs = pre ++
          (xs.foldl (fun b l => if l.total_volume > b.total_volume then l else b) b) :: suf ∧
        (∀ y ∈ pre, y.total_volume <
          (xs.foldl (fun b l => if l.total_volume > b.total_volume then l else b) b).total_volume) ∧
        (∀ y ∈ b :: xs, y.total_volume ≤
          (xs.foldl (fun b l => if l.total_volume > b.total_volume then l else b) b).total_volume) := by
  induction xs with
  | nil =>
      intro b
      exact ⟨[], [], rfl, by simp, by simp⟩
  | cons x xs ih =>
      intro b
      by_cases h : x.total_volume > b.total_volume
      · obtain ⟨pre, suf, hdec, hpre, hall⟩ := ih x
        simp only [List.foldl_cons, if_pos h]
        refine ⟨b :: pre, suf, by rw [List.cons_append, ← hdec], ?_, ?_⟩
        · intro y hy
          rcases List.mem_cons.mp hy with rfl | hy'
          · exact lt_of_lt_of_le h (hall x (List.mem_cons_self x xs))
          · exact hpre y hy'
        · intro y hy
          rcases List.mem_cons.mp hy with rfl | hy'
          · exact le_of_lt (lt_of_lt_of_le h (hall x (List.mem_cons_self x xs)))
          · exact hall y hy'
      · obtain ⟨pre, suf, hdec, hpre, hall⟩ := ih b
        simp only [List.foldl_cons, if_neg h]
        rcases pre with _ | ⟨p, pre'⟩
        · simp only [List.nil_append] at hdec
          injection hdec with hb0 hsuf0
          have hb : xs.foldl (fun b l => if l.total_volume > b.total_volume then l else b) b = b :=
            hb0.symm
          refine ⟨[], x :: xs, by rw [List.nil_append, hb], by simp, ?_⟩
          intro y hy
          rcases List.mem_cons.mp hy with rfl | hy'
          · rw [hb]
          · rcases List.mem_cons.mp hy' with rfl | hy''
            · rw [hb]; exact le_of_not_lt h
            · exact hall y (List.mem_cons_of_mem b hy'')
        · have hdec' := hdec
          rw [List.cons_append] at hdec'
          injection hdec' with hp0 hxs
          have hp : p = b := hp0.symm
          have hblt : b.total_volume <
              (xs.foldl (fun b l => if l.total_volume > b.total_volume then l else b) b).total_volume := by
            have := hpre p (List.mem_cons_self p pre')
            rwa [hp] at this
          refine ⟨b :: x :: pre', suf, by rw [List.cons_append, List.cons_append, ← hxs], ?_, ?_⟩
          · intro y hy
            rcases List.mem_cons.mp hy with rfl | hy'
            · exact hblt
            · rcases List.mem_cons.mp hy' with rfl | hy''
              · exact lt_of_le_of_lt (le_of_not_lt h) hblt
              · exact hpre y (List.mem_cons_of_mem p hy'')
          · intro y hy
            rcases List.mem_cons.mp hy with rfl | hy'
            · exact le_of_lt hblt
            · rcases List.mem_cons.mp hy' with rfl | hy''
              · exact le_of_lt (lt_of_le_of_lt (le_of_not_lt h) hblt)
              · exact hall y (List.mem_cons_of_mem b hy'')

/-- C6 (amended): for a nonempty level map, `poc` is the price of a
maximum-volume level, and among tied maxima it is the first level in the
map's insertion order (the order in which levels were first created), not
the lowest price of an ascending scan. -/
theorem C6_poc_first_max_insertion_order (c : FootprintCandle) (h : c.levels ≠ []) :
    ∃ pre l suf, c.levels = pre ++ l :: suf ∧ c.poc = l.price ∧
      (∀ y ∈ pre, y.total_volume < l.total_volume) ∧
      (∀ y ∈ c.levels, y.total_volume ≤ l.total_volume) := by
  rcases hl : c.levels with _ | ⟨x, xs⟩
  · exact absurd hl h
  obtain ⟨pre, suf, hdec, hpre, hall⟩ := foldl_maxByVol_spec xs x
  refine ⟨pre, _, suf, by rw [hdec], ?_, hpre, hall⟩
  simp [FootprintCandle.poc, pyMaxByVolume, hl]

/-- Counterexample for C6 as stated: with tied volumes the source's
`max(levels.values(), key=...)` keeps the first level in dict insertion
order, price 100 here, not the lowest tied price 50 that an ascending price
scan would find first. -/
theorem C6_poc_counterexample :
    c6Candle.poc = 100 ∧
    listMin (c6Candle.levels.map (·.price)) = 50 ∧
    (∀ l ∈ c6Candle.levels, l.total_volume = 5) ∧
    c6Candle.poc ≠ listMin (c6Candle.levels.map (·.price)) := by
  refine ⟨?_, ?_, ?_, ?_⟩
  · norm_num [c6Candle, FootprintCandle.poc, pyMaxByVolume, FootprintLevel.total_volume]
  · norm_num [c6Candle, listMin]
  · intro l hl
    rcases List.mem_cons.mp hl with rfl | hl'
    · norm_num [FootprintLevel.total_volume]
    · rcases List.mem_cons.mp hl' with rfl | hl''
      · norm_num [FootprintLevel.total_volume]
      · simp [c6Candle] at hl''
  · norm_num [c6Candle, FootprintCandle.poc, pyMaxByVolume, FootprintLevel.total_volume, listMin]

/-- Witness for C6 (amended) at `c6Candle`. -/
theorem C6_poc_first_max_insertion_order_witness :
    c6Candle.levels ≠ [] ∧
    ∃ pre l suf, c6Candle.levels = pre ++ l :: suf ∧ c6Candle.poc = l.price ∧
      (∀ y ∈ pre, y.total_volume < l.total_volume) ∧
      (∀ y ∈ c6Candle.levels, y.total_volume ≤ l.total_volume) :=
  ⟨by simp [c6Candle], C6_poc_first_max_insertion_order c6Candle (by simp [c6Candle])⟩

/-! ### C3: value area -/

theorem vaScan_coverage (target : ℚ) (ls : List FootprintLevel) :
    ∀ acc incl, (vaScan target ls acc incl).1 ≥ target ∨
      (vaScan target ls acc incl).1 = acc + (ls.map (·.total_volume)).sum := by
  induction ls with
  | nil => intro acc incl; right; simp [vaScan]
  | cons l rest ih =>
      intro acc incl
      by_cases h : acc ≥ target
      · left; simp [vaScan, h]
      · rw [vaScan, if_neg h]
        rcases ih (acc + l.total_volume) (incl ++ [l.price]) with hge | heq
        · left; exact hge
        · right; rw [heq]; simp; ring

theorem vaScan_mem (target : ℚ) (ls : List FootprintLevel) :
    ∀ acc incl x, x ∈ incl → x ∈ (vaScan target ls acc incl).2 := by
  induction ls with
  | nil => intro acc incl x hx; simpa [vaScan] using hx
  | cons l rest ih =>
      intro acc incl x hx
      by_cases h : acc ≥ target
      · simpa [vaScan, h] using hx
      · rw [vaScan, if_neg h]
        exact ih _ _ x (List.mem_append_left _ hx)

theorem foldl_min_le (l : List ℚ) : ∀ b : ℚ, l.foldl min b ≤ b := by
  induction l with
  | nil => intro b; exact le_refl b
  | cons x xs ih => intro b; exact le_trans (ih (min b x)) (min_le_left b x)

theorem foldl_min_le_of_mem (l : List ℚ) (x : ℚ) (h : x ∈ l) : ∀ b, l.foldl min b ≤ x := by
  induction l with
  | nil => cases h
  | cons y ys ih =>
      intro b
      rcases List.mem_cons.mp h with rfl | h'
      · exact le_trans (foldl_min_le ys (min b x)) (min_le_right b x)
      · exact ih h' (min b y)

theorem le_foldl_max_of_mem (l : List ℚ) (x : ℚ) (h : x ∈ l) : ∀ b, x ≤ l.foldl max b := by
  induction l with
  | nil => cases h
  | cons y ys ih =>
      intro b
      rcases List.mem_cons.mp h with rfl | h'
      · exact le_trans (le_max_right b x) (le_foldl_max ys (max b x))
      · exact ih h' (max b y)

theorem listMin_le_of_mem (l : List ℚ) (x : ℚ) (h : x ∈ l) : listMin l ≤ x := by
  rcases l with _ | ⟨y, ys⟩
  · cases h
  · rcases List.mem_cons.mp h with rfl | h'
    · exact foldl_min_le ys x
    · exact foldl_min_le_of_mem ys x h' y

theorem le_listMax_of_mem (l : List ℚ) (x : ℚ) (h : x ∈ l) : x ≤ listMax l := by
  rcases l with _ | ⟨y, ys⟩
  · cases h
  · rcases List.mem_cons.mp h with rfl | h'
    · exact le_foldl_max ys x
    · exact le_foldl_max_of_mem ys x h' y

theorem sortedByVolumeDesc_perm (ls : List FootprintLevel) :
    (sortedByVolumeDesc ls).Perm ls :=
  List.mergeSort_perm ls _

/-- C3: for a candle whose aggregate totals agree with its level sums (the
engine invariant of C9) and whose per-level volumes are nonnegative,
`get_value_area(pct)` with `pct ≤ 1` includes levels of cumulative volume at
least `pct` of the candle's total volume and satisfies `low ≤ poc ≤ high`;
for an empty level map it returns `high = low = poc = close` with
`volume_at_poc = 0`. -/
theorem C3_value_area (c : FootprintCandle) (pct : ℚ)
    (hpct : pct ≤ 1)
    (hbid : c.total_bid = levelsBid c.levels)
    (hask : c.total_ask = levelsAsk c.levels)
    (hnn : ∀ l ∈ c.levels, 0 ≤ l.bid_volume ∧ 0 ≤ l.ask_volume) :
    (c.levels = [] →
      c.get_value_area pct =
        { high := c.close, low := c.close, poc := c.close, volume_at_poc := 0 }) ∧
    (c.levels ≠ [] →
      (c.get_value_area pct).low ≤ (c.get_value_area pct).poc ∧
      (c.get_value_area pct).poc ≤ (c.get_value_area pct).high ∧
      pct * c.total_volume ≤ c.value_area_volume pct) := by
  constructor
  · intro hempty
    have hs : sortedByVolumeDesc c.levels = [] := by
      rw [hempty]; simp [sortedByVolumeDesc]
    rw [FootprintCandle.get_value_area, hs]
  · intro hne
    have hsne : sortedByVolumeDesc c.levels ≠ [] := by
      intro hs
      have := (sortedByVolumeDesc_perm c.levels).length_eq
      rw [hs] at this
      exact hne (List.eq_nil_of_length_eq_zero this.symm)
    rcases hs : sortedByVolumeDesc c.levels with _ | ⟨pocL, rest⟩
    · exact absurd hs hsne
    have hmem : pocL.price ∈
        (vaScan (c.total_volume * pct) rest pocL.total_volume [pocL.price]).2 :=
      vaScan_mem _ _ _ _ _ (List.mem_singleton.mpr rfl)
    refine ⟨?_, ?_, ?_⟩
    · rw [FootprintCandle.get_value_area, hs]
      exact listMin_le_of_mem _ _ hmem
    · rw [FootprintCandle.get_value_area, hs]
      exact le_listMax_of_mem _ _ hmem
    · rw [FootprintCandle.value_area_volume, hs]
      show pct * c.total_volume ≤
        (vaScan (c.total_volume * pct) rest pocL.total_volume [pocL.price]).1
      rcases vaScan_coverage (c.total_volume * pct) rest pocL.total_volume [pocL.price]
        with hge | heq
      · calc pct * c.total_volume = c.total_volume * pct := mul_comm _ _
          _ ≤ _ := hge
      · have hsum : pocL.total_volume + (rest.map (·.total_volume)).sum =
            ((pocL :: rest).map (·.total_volume)).sum := by
          simp
        have hperm : ((pocL :: rest).map (·.total_volume)).sum =
            (c.levels.map (·.total_volume)).sum := by
          refine List.Perm.sum_eq (List.Perm.map _ ?_)
          rw [← hs]
          exact sortedByVolumeDesc_perm c.levels
        have htot : (c.levels.map (·.total_volume)).sum = c.total_volume := by
          show (c.levels.map fun l => l.total_volume).sum = c.total_volume
          have : (c.levels.map fun l => l.total_volume).sum =
              (c.levels.map fun l => l.bid_volume + l.ask_volume).sum := rfl
          rw [this, sum_map_add_q, FootprintCandle.total_volume, hbid, hask]
          rfl
        have hnn' : 0 ≤ c.total_volume := by
          rw [← htot]
          apply List.sum_nonneg
          intro v hv
          obtain ⟨l, hl, rfl⟩ := List.mem_map.mp hv
          obtain ⟨h1, h2⟩ := hnn l hl
          exact add_nonneg h1 h2
        rw [heq, hsum, hperm, htot]
        calc pct * c.total_volume ≤ 1 * c.total_volume := by
              exact mul_le_mul_of_nonneg_right hpct hnn'
          _ = c.total_volume := one_mul _

/-- Witness for C3 at `c3Candle` with the default `pct = 0.70`. -/
theorem C3_value_area_witness :
    (7/10 : ℚ) ≤ 1 ∧
    (c3Candle.levels ≠ [] →
      (c3Candle.get_value_area (7/10)).low ≤ (c3Candle.get_value_area (7/10)).poc ∧
      (c3Candle.get_value_area (7/10)).poc ≤ (c3Candle.get_value_area (7/10)).high ∧
      (7/10) * c3Candle.total_volume ≤ c3Candle.value_area_volume (7/10)) := by
  refine ⟨by norm_num, ?_⟩
  refine (C3_value_area c3Candle (7/10) (by norm_num)
    (by norm_num [c3Candle, levelsBid]) (by norm_num [c3Candle, levelsAsk]) ?_).2
  intro l hl
  rcases List.mem_cons.mp hl with rfl | hl'
  · exact ⟨by norm_num, by norm_num⟩
  · rcases List.mem_cons.mp hl' with rfl | hl''
    · exact ⟨by norm_num, by norm_num⟩
    · simp [c3Candle] at hl''

/-! ### C7: low-volume regime suppresses trading -/

/-- C7: on a window of at least 5 candles whose volume health (over the
last-`min(lookback, n)` slice the source actually analyzes) is below 0.3,
`analyze` classifies `low_volume` regardless of volatility and trend, and
`should_trade()` is then false; whenever any other regime is classified,
`should_trade()` is true. -/
theorem C7_low_volume_blocks_trading (st : RegimeState) (candles : List FootprintCandle)
    (h5 : 5 ≤ candles.length) :
    (calcVolumeHealth (pySliceLast (min st.lookback candles.length) candles) < 3/10 →
      (analyzeRegime st candles).1 = .low_volume ∧
      shouldTrade (analyzeRegime st candles).2 = false) ∧
    ((analyzeRegime st candles).1 ≠ .low_volume →
      shouldTrade (analyzeRegime st candles).2 = true) := by
  have hn : ¬ candles.length < 5 := not_lt.mpr h5
  rw [analyzeRegime, if_neg hn]
  dsimp only
  constructor
  · intro hlow
    rw [classifyRegime, if_pos hlow]
    refine ⟨rfl, ?_⟩
    simp [shouldTrade, regimeGuidance]
  · intro hne
    rcases hcl : classifyRegime
        (calcVolatilitySq (pySliceLast (min st.lookback candles.length) candles))
        (calcTrendStrength (pySliceLast (min st.lookback candles.length) candles))
        (calcVolumeHealth (pySliceLast (min st.lookback candles.length) candles))
      with _ | _ | _ | _ | _
    · simp [shouldTrade, regimeGuidance]
    · simp [shouldTrade, regimeGuidance]
    · simp [shouldTrade, regimeGuidance]
    · simp [shouldTrade, regimeGuidance]
    · exact absurd hcl hne

/-- Witness for C7: the concrete dried-up window classifies `low_volume` and
`should_trade()` is false. -/
theorem C7_low_volume_blocks_trading_witness :
    5 ≤ c7Window.length ∧
    calcVolumeHealth (pySliceLast (min ({} : RegimeState).lookback c7Window.length) c7Window)
      < 3/10 ∧
    (analyzeRegime {} c7Window).1 = .low_volume ∧
    shouldTrade (analyzeRegime {} c7Window).2 = false := by
  have h5 : 5 ≤ c7Window.length := by norm_num [c7Window]
  have hlow : calcVolumeHealth
      (pySliceLast (min ({} : RegimeState).lookback c7Window.length) c7Window) < 3/10 := by
    norm_num [c7Window, c7Candle, calcVolumeHealth, pySliceLast, FootprintCandle.total_volume]
  exact ⟨h5, hlow, (C7_low_volume_blocks_trading {} c7Window h5).1 hlow⟩

/-! ### C8: sweep detection as a function of the swing window -/

/-- C8 (amended): for windows of at least 5 candles, `update_swings` discards
all prior swing state and recomputes it from the window alone, so two
detectors with the same `min_sweep_pct` but arbitrary different prior swing
state produce identical `detect` results after `update_swings` on the same
window.  (Below 5 candles the source returns early without clearing, and the
stale prior state leaks into `detect` — see the counterexample.) -/
theorem C8_detect_deterministic (s1 s2 : SweepState) (window : List FootprintCandle)
    (h5 : 5 ≤ window.length) (hpct : s1.min_sweep_pct = s2.min_sweep_pct)
    (candle : FootprintCandle) (prev : Option FootprintCandle) :
    sweepDetect (updateSwings s1 window) candle prev =
      sweepDetect (updateSwings s2 window) candle prev := by
  have hn : ¬ window.length < 5 := not_lt.mpr h5
  rw [updateSwings, if_neg hn, updateSwings, if_neg hn]
  rcases prev with _ | p
  · rfl
  · dsimp only [sweepDetect]
    rw [hpct]

/-- Counterexample for C8 as stated: with a window of fewer than 5 candles
(here: empty), `update_swings` is a no-op that does not clear prior state,
so two detectors with different prior states and the same window and
`(candle, previous)` pair disagree in `detect`. -/
theorem C8_detect_deterministic_counterexample :
    updateSwings c8A [] = c8A ∧ updateSwings c8B [] = c8B ∧
    c8A.min_sweep_pct = c8B.min_sweep_pct ∧
    sweepDetect (updateSwings c8A []) c8Candle (some c8Prev) ≠
      sweepDetect (updateSwings c8B []) c8Candle (some c8Prev) := by
  refine ⟨rfl, rfl, rfl, ?_⟩
  have hA : updateSwings c8A [] = c8A := rfl
  have hB : updateSwings c8B [] = c8B := rfl
  rw [hA, hB]
  norm_num [sweepDetect, c8A, c8B, c8Candle, c8Prev, List.filterMap]

/-- Witness for C8 (amended) at concrete detectors and window. -/
theorem C8_detect_deterministic_witness :
    5 ≤ c8Window.length ∧ c8A.min_sweep_pct = c8B.min_sweep_pct ∧
    sweepDetect (updateSwings c8A c8Window) c8Candle (some c8Prev) =
      sweepDetect (updateSwings c8B c8Window) c8Candle (some c8Prev) := by
  refine ⟨by norm_num [c8Window], rfl, ?_⟩
  exact C8_detect_deterministic c8A c8B c8Window (by norm_num [c8Window]) rfl c8Candle (some c8Prev)

/-! ### C5: exhaustion detection -/

/-- C5 (amended): with at least `lookback + 1 = 6` closed candles,
`detect_exhaustion(5)` slices the last 5 closed candles, compares the latest
against the mean `|delta|` and mean range of the **4** candles preceding it
within that slice (not 5), returns nothing when either mean is zero, and
otherwise reports exhaustion in the direction of the latest delta's sign
exactly when `|delta|/meanDelta > 1.5` and `range/meanRange < 0.5`. -/
theorem C5_exhaustion_four_prior (s : EngineState)
    (h6 : 6 ≤ s.completed_candles.length) :
    ∃ latest, (pySliceLast 5 s.completed_candles).getLast? = some latest ∧
      (pySliceLast 5 s.completed_candles).dropLast.length = 4 ∧
      ((detectExhaustion s 5).isSome = true ↔
        (¬((((pySliceLast 5 s.completed_candles).dropLast.map (fun c => |c.delta|)).sum / 4 = 0) ∨
           (((pySliceLast 5 s.completed_candles).dropLast.map (fun c => c.high - c.low)).sum / 4 = 0)) ∧
         |latest.delta| /
           ((((pySliceLast 5 s.completed_candles).dropLast.map (fun c => |c.delta|)).sum) / 4) > 3/2 ∧
         (latest.high - latest.low) /
           ((((pySliceLast 5 s.completed_candles).dropLast.map (fun c => c.high - c.low)).sum) / 4) < 1/2)) ∧
      (∀ r, detectExhaustion s 5 = some r →
        r.direction = (if latest.delta > 0 then ExhaustDir.bull else ExhaustDir.bear) ∧
        r.price = latest.close) := by
  have hne5 : (5 : ℕ) ≠ 0 := by norm_num
  have hlen : (pySliceLast 5 s.completed_candles).length = 5 := by
    rw [pySliceLast, if_neg hne5, List.length_drop]
    omega
  have hlen4 : (pySliceLast 5 s.completed_candles).dropLast.length = 4 := by
    rw [List.length_dropLast, hlen]
  rcases hL : (pySliceLast 5 s.completed_candles).getLast? with _ | latest
  · exfalso
    rw [List.getLast?_eq_none_iff] at hL
    rw [hL] at hlen
    simp at hlen
  have hguard : ¬ s.completed_candles.length < 5 + 1 := by omega
  have hcast : ((pySliceLast 5 s.completed_candles).dropLast.length : ℚ) = 4 := by
    rw [hlen4]; norm_num
  refine ⟨latest, rfl, hlen4, ?_, ?_⟩
  · rw [detectExhaustion, if_neg hguard]
    dsimp only
    rw [hL]
    dsimp only
    rw [hcast]
    by_cases h0 :
        ((((pySliceLast 5 s.completed_candles).dropLast.map (fun c => |c.delta|)).sum / 4 = 0) ∨
         (((pySliceLast 5 s.completed_candles).dropLast.map (fun c => c.high - c.low)).sum / 4 = 0))
    · rw [if_pos h0]
      constructor
      · intro hfalse
        simp at hfalse
      · intro hcon
        exact absurd h0 hcon.1
    · rw [if_neg h0]
      by_cases hc :
          |latest.delta| /
            ((((pySliceLast 5 s.completed_candles).dropLast.map (fun c => |c.delta|)).sum) / 4) > 3/2 ∧
          (latest.high - latest.low) /
            ((((pySliceLast 5 s.completed_candles).dropLast.map (fun c => c.high - c.low)).sum) / 4) < 1/2
      · rw [if_pos hc]
        constructor
        · intro _
          exact ⟨h0, hc.1, hc.2⟩
        · intro _
          rfl
      · rw [if_neg hc]
        constructor
        · intro hfalse
          simp at hfalse
        · intro hcon
          exact absurd ⟨hcon.2.1, hcon.2.2⟩ hc
  · intro r hr
    rw [detectExhaustion, if_neg hguard] at hr
    dsimp only at hr
    rw [hL] at hr
    dsimp only at hr
    rw [hcast] at hr
    by_cases h0 :
        ((((pySliceLast 5 s.completed_candles).dropLast.map (fun c => |c.delta|)).sum / 4 = 0) ∨
         (((pySliceLast 5 s.completed_candles).dropLast.map (fun c => c.high - c.low)).sum / 4 = 0))
    · rw [if_pos h0] at hr; cases hr
    · rw [if_neg h0] at hr
      by_cases hc :
          |latest.delta| /
            ((((pySliceLast 5 s.completed_candles).dropLast.map (fun c => |c.delta|)).sum) / 4) > 3/2 ∧
          (latest.high - latest.low) /
            ((((pySliceLast 5 s.completed_candles).dropLast.map (fun c => c.high - c.low)).sum) / 4) < 1/2
      · rw [if_pos hc] at hr
        injection hr with hr'
        subst hr'
        exact ⟨rfl, rfl⟩
      · rw [if_neg hc] at hr; cases hr

/-- Evaluation of the engine on the 13 `exTicks`: six closed candles. -/
theorem exState_completed :
    exState.completed_candles = [exC 0 100, exC 10 1, exC 20 1, exC 30 1, exC 40 1, exC5] := by
  have c0 : candleStart 10 0 = 0 := by decide
  have c1 : candleStart 10 1 = 0 := by decide
  have c10 : candleStart 10 10 = 10 := by decide
  have c11 : candleStart 10 11 = 10 := by decide
  have c20 : candleStart 10 20 = 20 := by decide
  have c21 : candleStart 10 21 = 20 := by decide
  have c30 : candleStart 10 30 = 30 := by decide
  have c31 : candleStart 10 31 = 30 := by decide
  have c40 : candleStart 10 40 = 40 := by decide
  have c41 : candleStart 10 41 = 40 := by decide
  have c50 : candleStart 10 50 = 50 := by decide
  have c51 : candleStart 10 51 = 50 := by decide
  have c60 : candleStart 10 60 = 60 := by decide
  norm_num [exState, runTicks, exTicks, exBase, processTick, closeCandle, addTickToCandle,
    newCandle, updateLevels, bumpLevel, priceToLevel, pushCap, RawTick.is_buy,
    FootprintCandle.delta, exC, exC5,
    c0, c1, c10, c11, c20, c21, c30, c31, c40, c41, c50, c51, c60]

/-- Counterexample for C5 as stated: after `exTicks` the engine holds six
closed candles and `detect_exhaustion(5)` reports exhaustion, yet against
the mean `|delta|` of the **five** candles preceding the latest (as the
claim reads) the ratio is `10/20.8 < 1.5`: the code averages only the 4
candles preceding the latest within its 5-candle slice. -/
theorem C5_exhaustion_four_prior_counterexample :
    (detectExhaustion exState 5).isSome = true ∧
    ∃ latest, exState.completed_candles.getLast? = some latest ∧
      exState.completed_candles.dropLast.length = 5 ∧
      ¬(|latest.delta| /
          ((exState.completed_candles.dropLast.map (fun c => |c.delta|)).sum /
            (exState.completed_candles.dropLast.length : ℚ)) > 3/2) := by
  constructor
  · norm_num [detectExhaustion, exState_completed, pySliceLast, FootprintCandle.delta,
      exC, exC5]
  · refine ⟨exC5, ?_, ?_, ?_⟩
    · rw [exState_completed]; rfl
    · rw [exState_completed]; rfl
    · rw [exState_completed]
      norm_num [FootprintCandle.delta, exC, exC5]

/-- Witness for C5 (amended) at the concrete state `exState`. -/
theorem C5_exhaustion_four_prior_witness :
    6 ≤ exState.completed_candles.length ∧
    (∃ latest, (pySliceLast 5 exState.completed_candles).getLast? = some latest ∧
      (pySliceLast 5 exState.completed_candles).dropLast.length = 4 ∧
      ((detectExhaustion exState 5).isSome = true ↔
        (¬((((pySliceLast 5 exState.completed_candles).dropLast.map (fun c => |c.delta|)).sum / 4 = 0) ∨
           (((pySliceLast 5 exState.completed_candles).dropLast.map (fun c => c.high - c.low)).sum / 4 = 0)) ∧
         |latest.delta| /
           ((((pySliceLast 5 exState.completed_candles).dropLast.map (fun c => |c.delta|)).sum) / 4) > 3/2 ∧
         (latest.high - latest.low) /
           ((((pySliceLast 5 exState.completed_candles).dropLast.map (fun c => c.high - c.low)).sum) / 4) < 1/2)) ∧
      (∀ r, detectExhaustion exState 5 = some r →
        r.direction = (if latest.delta > 0 then ExhaustDir.bull else ExhaustDir.bear) ∧
        r.price = latest.close)) := by
  have h6 : 6 ≤ exState.completed_candles.length := by
    rw [exState_completed]; norm_num
  exact ⟨h6, C5_exhaustion_four_prior exState h6⟩

/-! ### C4: three distinct bullish types at strength 80 -/

theorem bullish_not_bearish :
    ∀ t : SignalType, t ∈ bullishSignals → bearishSignals.contains t = false := by
  decide

theorem maxSignalWeight_eq : listMax (allSignalTypes.map signalWeight) = 13/10 := by
  norm_num [allSignalTypes, signalWeight, listMax, max_def]

/-- The directional score of three distinct bullish signals at strength 80. -/
theorem score_three_bullish_80 (t1 t2 t3 : SignalType)
    (p1 p2 p3 : ℚ) (ts1 ts2 ts3 : ℤ) (d1 d2 d3 : String)
    (hb1 : t1 ∈ bullishSignals) (hb2 : t2 ∈ bullishSignals) (hb3 : t3 ∈ bullishSignals)
    (h12 : t1 ≠ t2) (h13 : t1 ≠ t3) (h23 : t2 ≠ t3) :
    computeDirectionalScore
        [⟨t1, 80, p1, ts1, d1⟩, ⟨t2, 80, p2, ts2, d2⟩, ⟨t3, 80, p3, ts3, d3⟩]
        bullishSignals =
      min ((80 * signalWeight t1 + 80 * signalWeight t2 + 80 * signalWeight t3) / 3 / 130 * 70
        + 24) 100 := by
  have hc1 : bullishSignals.contains t1 = true := by
    exact List.elem_eq_true_of_mem hb1
  have hc2 : bullishSignals.contains t2 = true := by
    exact List.elem_eq_true_of_mem hb2
  have hc3 : bullishSignals.contains t3 = true := by
    exact List.elem_eq_true_of_mem hb3
  have hnd : ([t1, t2, t3] : List SignalType).Nodup := by
    simp [List.nodup_cons, h12, h13, h23]
  rw [computeDirectionalScore]
  simp only [List.filter_cons, hc1, hc2, hc3, List.filter_nil, if_true]
  have hlen : ([⟨t1, 80, p1, ts1, d1⟩, ⟨t2, 80, p2, ts2, d2⟩,
      (⟨t3, 80, p3, ts3, d3⟩ : OrderFlowSignal)] : List OrderFlowSignal).length = 3 := rfl
  rw [if_neg (by rw [hlen]; norm_num)]
  have hmap : ([⟨t1, 80, p1, ts1, d1⟩, ⟨t2, 80, p2, ts2, d2⟩,
      (⟨t3, 80, p3, ts3, d3⟩ : OrderFlowSignal)] : List OrderFlowSignal).map (·.type)
      = [t1, t2, t3] := rfl
  rw [hmap, List.Nodup.dedup hnd]
  rw [if_neg (by norm_num)]
  rw [maxSignalWeight_eq]
  norm_num
  ring_nf

/-- A set of signals none of whose types is in the given list scores 0. -/
theorem score_none_relevant_zero (sigs : List OrderFlowSignal) (valid : List SignalType)
    (h : ∀ s ∈ sigs, valid.contains s.type = false) :
    computeDirectionalScore sigs valid = 0 := by
  have hf : sigs.filter (fun s => valid.contains s.type) = [] := by
    rw [List.filter_eq_nil_iff]
    intro s hs
    rw [h s hs]
    exact Bool.false_ne_true
  rw [computeDirectionalScore, hf]
  norm_num

/-- C4 (amended): three signals of three distinct bullish types, each with
strength 80 and no bearish signals, with minimum confluence 65, yield a
`buy` TradeSignal whenever the three types' weights sum to at least 2.9 —
the directional score `(weighted-average strength / (100×1.3)) × 70 +
min((3−1)×12, 30)` then reaches 65.  (For lighter type triples, weight sum
≤ 2.8, the score stays below 65 and no signal is emitted: see the
counterexample.) -/
theorem C4_three_bullish_types_buy (t1 t2 t3 : SignalType)
    (hb1 : t1 ∈ bullishSignals) (hb2 : t2 ∈ bullishSignals) (hb3 : t3 ∈ bullishSignals)
    (h12 : t1 ≠ t2) (h13 : t1 ≠ t3) (h23 : t2 ≠ t3)
    (hW : 29/10 ≤ signalWeight t1 + signalWeight t2 + signalWeight t3)
    (st : StrategyState) (hmin : st.min_score = 65)
    (candle : FootprintCandle)
    (p1 p2 p3 : ℚ) (ts1 ts2 ts3 : ℤ) (d1 d2 d3 : String) :
    ∃ tr, evaluate st candle
        [⟨t1, 80, p1, ts1, d1⟩, ⟨t2, 80, p2, ts2, d2⟩, ⟨t3, 80, p3, ts3, d3⟩] = some tr ∧
      tr.side = .buy ∧ 65 ≤ tr.confluence_score := by
  have hbull := score_three_bullish_80 t1 t2 t3 p1 p2 p3 ts1 ts2 ts3 d1 d2 d3
    hb1 hb2 hb3 h12 h13 h23
  have hbear : computeDirectionalScore
      [⟨t1, 80, p1, ts1, d1⟩, ⟨t2, 80, p2, ts2, d2⟩, ⟨t3, 80, p3, ts3, d3⟩]
      bearishSignals = 0 := by
    apply score_none_relevant_zero
    intro s hs
    rcases List.mem_cons.mp hs with rfl | hs'
    · exact bullish_not_bearish t1 hb1
    · rcases List.mem_cons.mp hs' with rfl | hs''
      · exact bullish_not_bearish t2 hb2
      · rcases List.mem_cons.mp hs'' with rfl | hs'''
        · exact bullish_not_bearish t3 hb3
        · cases hs'''
  have hge : (65 : ℚ) ≤
      min ((80 * signalWeight t1 + 80 * signalWeight t2 + 80 * signalWeight t3) / 3 / 130 * 70
        + 24) 100 := by
    rw [le_min_iff]
    constructor
    · nlinarith [hW]
    · norm_num
  rw [evaluate]
  rw [if_neg (by simp)]
  rw [hbull, hbear]
  rw [if_pos ⟨by rw [hmin]; exact hge, lt_of_lt_of_le (by norm_num) hge⟩]
  refine ⟨_, rfl, rfl, ?_⟩
  exact hge

/-- Counterexample for C4 as stated: the three distinct bullish types
`exhaustion_bear`, `cvd_confirms_up`, `poc_magnet_long` (weights 1.0, 0.8,
0.7, sum 2.5) at strength 80 score `(80·2.5/3)/130·70 + 24 ≈ 59.9 < 65`, so
`evaluate` with minimum confluence 65 returns no TradeSignal at all. -/
theorem C4_three_bullish_types_buy_counterexample :
    SignalType.exhaustion_bear ∈ bullishSignals ∧
    SignalType.cvd_confirms_up ∈ bullishSignals ∧
    SignalType.poc_magnet_long ∈ bullishSignals ∧
    evaluate c4State c4Candle
      [⟨.exhaustion_bear, 80, 100, 0, ""⟩, ⟨.cvd_confirms_up, 80, 100, 0, ""⟩,
       ⟨.poc_magnet_long, 80, 100, 0, ""⟩] = none := by
  refine ⟨by decide, by decide, by decide, ?_⟩
  have hbull := score_three_bullish_80 .exhaustion_bear .cvd_confirms_up .poc_magnet_long
    100 100 100 0 0 0 "" "" ""
    (by decide) (by decide) (by decide) (by decide) (by decide) (by decide)
  have hbear : computeDirectionalScore
      [⟨.exhaustion_bear, 80, 100, 0, ""⟩, ⟨.cvd_confirms_up, 80, 100, 0, ""⟩,
       (⟨.poc_magnet_long, 80, 100, 0, ""⟩ : OrderFlowSignal)] bearishSignals = 0 := by
    apply score_none_relevant_zero
    intro s hs
    rcases List.mem_cons.mp hs with rfl | hs'
    · decide
    · rcases List.mem_cons.mp hs' with rfl | hs''
      · decide
      · rcases List.mem_cons.mp hs'' with rfl | hs'''
        · decide
        · cases hs'''
  have hval : min ((80 * signalWeight .exhaustion_bear + 80 * signalWeight .cvd_confirms_up
      + 80 * signalWeight .poc_magnet_long) / 3 / 130 * 70 + 24) 100 = 2336/39 := by
    norm_num [signalWeight, min_def]
  rw [evaluate, if_neg (by simp), hbull, hbear, hval]
  rw [if_neg (by norm_num [c4State]), if_neg (by norm_num [c4State])]

/-- Witness for C4 (amended): the heavy triple stacked-imbalance-buy,
delta-divergence-bull, absorption-support (weights 1.3 + 1.2 + 1.1 = 3.6). -/
theorem C4_three_bullish_types_buy_witness :
    ∃ tr, evaluate c4State c4Candle
        [⟨.stacked_imbalance_buy, 80, 100, 0, ""⟩, ⟨.delta_divergence_bull, 80, 100, 0, ""⟩,
         ⟨.absorption_support, 80, 100, 0, ""⟩] = some tr ∧
      tr.side = .buy ∧ 65 ≤ tr.confluence_score := by
  exact C4_three_bullish_types_buy .stacked_imbalance_buy .delta_divergence_bull
    .absorption_support (by decide) (by decide) (by decide)
    (by decide) (by decide) (by decide)
    (by norm_num [signalWeight]) c4State rfl c4Candle 100 100 100 0 0 0 "" "" ""

/-! ### C10: stop/target on the correct side of entry -/

theorem roundHalfEven_bounds (y : ℚ) :
    y - 1/2 ≤ (roundHalfEven y : ℚ) ∧ (roundHalfEven y : ℚ) ≤ y + 1/2 := by
  have hfl : (⌊y⌋ : ℚ) ≤ y := Int.floor_le y
  have hfu : y < (⌊y⌋ : ℚ) + 1 := Int.lt_floor_add_one y
  rw [roundHalfEven]
  split_ifs with h1 h2 h3 <;>
    constructor <;> push_cast <;> linarith

theorem pyRound2_bounds (x : ℚ) :
    x - 1/200 ≤ pyRound2 x ∧ pyRound2 x ≤ x + 1/200 := by
  obtain ⟨hl, hu⟩ := roundHalfEven_bounds (x * 100)
  rw [pyRound2]
  constructor <;> [linarith; linarith]

theorem buildLong_fields (st : StrategyState) (candle : FootprintCandle)
    (signals : List OrderFlowSignal) (score : ℚ) :
    (buildLongSignal st candle signals score).side = .buy ∧
    (buildLongSignal st candle signals score).entry_price = candle.close ∧
    (buildLongSignal st candle signals score).stop_loss =
      pyRound2 (candle.close - (slTpDistances st.completed candle
        (classifyStrategy signals .buy)).1) ∧
    (buildLongSignal st candle signals score).take_profit =
      pyRound2 (candle.close + (slTpDistances st.completed candle
        (classifyStrategy signals .buy)).2) :=
  ⟨rfl, rfl, rfl, rfl⟩

theorem buildShort_fields (st : StrategyState) (candle : FootprintCandle)
    (signals : List OrderFlowSignal) (score : ℚ) :
    (buildShortSignal st candle signals score).side = .sell ∧
    (buildShortSignal st candle signals score).entry_price = candle.close ∧
    (buildShortSignal st candle signals score).stop_loss =
      pyRound2 (candle.close + (slTpDistances st.completed candle
        (classifyStrategy signals .sell)).1) ∧
    (buildShortSignal st candle signals score).take_profit =
      pyRound2 (candle.close - (slTpDistances st.completed candle
        (classifyStrategy signals .sell)).2) :=
  ⟨rfl, rfl, rfl, rfl⟩

/-- C10 (amended): every TradeSignal from `evaluate` has its stop and target
placed around the entry (= close) at the strategy's distances and rounded to
2 decimals; whenever both unrounded distances exceed half a cent (1/200),
the rounded stop/target lie strictly on the correct side of the entry:
`stop < entry < target` for `buy`, `target < entry < stop` for `sell`.
(With distances at or below 1/200, rounding can land them on — or even
across — the entry: see the counterexample.) -/
theorem C10_sl_tp_strict_sides (st : StrategyState) (candle : FootprintCandle)
    (signals : List OrderFlowSignal) (tr : TradeSignal)
    (h : evaluate st candle signals = some tr)
    (hsl : 1/200 < (slTpDistances st.completed candle (classifyStrategy signals tr.side)).1)
    (htp : 1/200 < (slTpDistances st.completed candle (classifyStrategy signals tr.side)).2) :
    (tr.side = .buy → tr.stop_loss < tr.entry_price ∧ tr.entry_price < tr.take_profit) ∧
    (tr.side = .sell → tr.take_profit < tr.entry_price ∧ tr.entry_price < tr.stop_loss) := by
  rw [evaluate] at h
  by_cases h0 : signals = []
  · rw [if_pos h0] at h; cases h
  all_goals rw [if_neg h0] at h
  all_goals dsimp only at h
  by_cases hbuy : computeDirectionalScore signals bullishSignals ≥ st.min_score ∧
    computeDirectionalScore signals bullishSignals > computeDirectionalScore signals bearishSignals
  case pos =>
    rw [if_pos hbuy] at h
    injection h with h'
    subst h'
    obtain ⟨hside, hentry, hstop, htake⟩ := buildLong_fields st candle signals
      (computeDirectionalScore signals bullishSignals)
    rw [hside] at hsl htp
    constructor
    · intro _
      rw [hentry, hstop, htake]
      obtain ⟨_, hub⟩ := pyRound2_bounds (candle.close -
        (slTpDistances st.completed candle (classifyStrategy signals .buy)).1)
      obtain ⟨hlb, _⟩ := pyRound2_bounds (candle.close +
        (slTpDistances st.completed candle (classifyStrategy signals .buy)).2)
      constructor <;> linarith
    · intro hcon
      rw [hside] at hcon
      cases hcon
  case neg =>
    rw [if_neg hbuy] at h
    by_cases hsell : computeDirectionalScore signals bearishSignals ≥ st.min_score ∧
      computeDirectionalScore signals bearishSignals > computeDirectionalScore signals bullishSignals
    case neg => rw [if_neg hsell] at h; cases h
    rw [if_pos hsell] at h
    injection h with h'
    subst h'
    obtain ⟨hside, hentry, hstop, htake⟩ := buildShort_fields st candle signals
      (computeDirectionalScore signals bearishSignals)
    rw [hside] at hsl htp
    constructor
    · intro hcon
      rw [hside] at hcon
      cases hcon
    · intro _
      rw [hentry, hstop, htake]
      obtain ⟨hlb, _⟩ := pyRound2_bounds (candle.close +
        (slTpDistances st.completed candle (classifyStrategy signals .sell)).1)
      obtain ⟨_, hub⟩ := pyRound2_bounds (candle.close -
        (slTpDistances st.completed candle (classifyStrategy signals .sell)).2)
      constructor <;> linarith

/-- Counterexample for C10 as stated: with a tiny ATR proxy (mean range
0.004) the reversal stop distance is 0.0048, and
`round(100 − 0.0048, 2) = 100.00`, so the emitted buy signal's stop_loss
equals its entry_price instead of lying strictly below it. -/
theorem C10_sl_tp_strict_sides_counterexample :
    ∃ tr, evaluate c10State c4Candle
        [⟨.stacked_imbalance_buy, 80, 100, 0, ""⟩, ⟨.delta_divergence_bull, 80, 100, 0, ""⟩,
         ⟨.absorption_support, 80, 100, 0, ""⟩] = some tr ∧
      tr.side = .buy ∧ tr.entry_price = 100 ∧ tr.stop_loss = 100 ∧
      ¬(tr.stop_loss < tr.entry_price) := by
  have hbull := score_three_bullish_80 .stacked_imbalance_buy .delta_divergence_bull
    .absorption_support 100 100 100 0 0 0 "" "" ""
    (by decide) (by decide) (by decide) (by decide) (by decide) (by decide)
  have hbear : computeDirectionalScore
      [⟨.stacked_imbalance_buy, 80, 100, 0, ""⟩, ⟨.delta_divergence_bull, 80, 100, 0, ""⟩,
       (⟨.absorption_support, 80, 100, 0, ""⟩ : OrderFlowSignal)] bearishSignals = 0 := by
    apply score_none_relevant_zero
    intro s hs
    rcases List.mem_cons.mp hs with rfl | hs'
    · decide
    · rcases List.mem_cons.mp hs' with rfl | hs''
      · decide
      · rcases List.mem_cons.mp hs'' with rfl | hs'''
        · decide
        · cases hs'''
  have hval : min ((80 * signalWeight .stacked_imbalance_buy
      + 80 * signalWeight .delta_divergence_bull
      + 80 * signalWeight .absorption_support) / 3 / 130 * 70 + 24) 100 = 984/13 := by
    norm_num [signalWeight, min_def]
  have hcls : classifyStrategy
      [⟨.stacked_imbalance_buy, 80, 100, 0, ""⟩, ⟨.delta_divergence_bull, 80, 100, 0, ""⟩,
       (⟨.absorption_support, 80, 100, 0, ""⟩ : OrderFlowSignal)] .buy = .reversal := by
    decide
  have hatr : atrProxy c10State.completed c4Candle = 1/250 := by
    norm_num [atrProxy, c10State, c10Hist, c4Candle, pySliceLast, List.filter]
    simp
  have hd : slTpDistances c10State.completed c4Candle .reversal = (3/625, 1/125) := by
    rw [slTpDistances, hatr]
    norm_num
  have hround : pyRound2 (c4Candle.close - 3/625) = 100 := by
    have hfl : ⌊(c4Candle.close - 3/625) * 100⌋ = 9999 := by
      norm_num [c4Candle]
    rw [pyRound2, roundHalfEven, hfl]
    norm_num [c4Candle]
  rw [evaluate, if_neg (by simp), hbull, hbear, hval]
  rw [if_pos ⟨by norm_num [c10State], by norm_num⟩]
  refine ⟨_, rfl, rfl, rfl, ?_, ?_⟩
  · obtain ⟨_, _, hstop, _⟩ := buildLong_fields c10State c4Candle _ (984/13)
    rw [hstop, hcls, hd]
    exact hround
  · obtain ⟨_, hentry, hstop, _⟩ := buildLong_fields c10State c4Candle _ (984/13)
    rw [hstop, hentry, hcls, hd, hround]
    norm_num [c4Candle]

/-- Witness for C10 (amended): with ATR proxy 10 both distances (12, 20)
exceed 1/200 and the emitted buy signal has `stop < entry < target`. -/
theorem C10_sl_tp_strict_sides_witness :
    ∃ tr, evaluate c10StateW c4Candle
        [⟨.stacked_imbalance_buy, 80, 100, 0, ""⟩, ⟨.delta_divergence_bull, 80, 100, 0, ""⟩,
         ⟨.absorption_support, 80, 100, 0, ""⟩] = some tr ∧
      1/200 < (slTpDistances c10StateW.completed c4Candle
        (classifyStrategy
          [⟨.stacked_imbalance_buy, 80, 100, 0, ""⟩, ⟨.delta_divergence_bull, 80, 100, 0, ""⟩,
           ⟨.absorption_support, 80, 100, 0, ""⟩] tr.side)).1 ∧
      1/200 < (slTpDistances c10StateW.completed c4Candle
        (classifyStrategy
          [⟨.stacked_imbalance_buy, 80, 100, 0, ""⟩, ⟨.delta_divergence_bull, 80, 100, 0, ""⟩,
           ⟨.absorption_support, 80, 100, 0, ""⟩] tr.side)).2 ∧
      tr.stop_loss < tr.entry_price ∧ tr.entry_price < tr.take_profit := by
  have hbull := score_three_bullish_80 .stacked_imbalance_buy .delta_divergence_bull
    .absorption_support 100 100 100 0 0 0 "" "" ""
    (by decide) (by decide) (by decide) (by decide) (by decide) (by decide)
  have hbear : computeDirectionalScore
      [⟨.stacked_imbalance_buy, 80, 100, 0, ""⟩, ⟨.delta_divergence_bull, 80, 100, 0, ""⟩,
       (⟨.absorption_support, 80, 100, 0, ""⟩ : OrderFlowSignal)] bearishSignals = 0 := by
    apply score_none_relevant_zero
    intro s hs
    rcases List.mem_cons.mp hs with rfl | hs'
    · decide
    · rcases List.mem_cons.mp hs' with rfl | hs''
      · decide
      · rcases List.mem_cons.mp hs'' with rfl | hs'''
        · decide
        · cases hs'''
  have hval : min ((80 * signalWeight .stacked_imbalance_buy
      + 80 * signalWeight .delta_divergence_bull
      + 80 * signalWeight .absorption_support) / 3 / 130 * 70 + 24) 100 = 984/13 := by
    norm_num [signalWeight, min_def]
  have h : evaluate c10StateW c4Candle
      [⟨.stacked_imbalance_buy, 80, 100, 0, ""⟩, ⟨.delta_divergence_bull, 80, 100, 0, ""⟩,
       ⟨.absorption_support, 80, 100, 0, ""⟩] =
      some (buildLongSignal c10StateW c4Candle
        [⟨.stacked_imbalance_buy, 80, 100, 0, ""⟩, ⟨.delta_divergence_bull, 80, 100, 0, ""⟩,
         ⟨.absorption_support, 80, 100, 0, ""⟩] (984/13)) := by
    rw [evaluate, if_neg (by simp), hbull, hbear, hval]
    rw [if_pos ⟨by norm_num [c10StateW], by norm_num⟩]
  have hcls : classifyStrategy
      [⟨.stacked_imbalance_buy, 80, 100, 0, ""⟩, ⟨.delta_divergence_bull, 80, 100, 0, ""⟩,
       (⟨.absorption_support, 80, 100, 0, ""⟩ : OrderFlowSignal)] .buy = .reversal := by
    decide
  have hatr : atrProxy c10StateW.completed c4Candle = 10 := by
    norm_num [atrProxy, c10StateW, c10HistW, c4Candle, pySliceLast, List.filter]
    simp
  have hd : slTpDistances c10StateW.completed c4Candle .reversal = (12, 20) := by
    rw [slTpDistances, hatr]
    norm_num
  have hside : (buildLongSignal c10StateW c4Candle
      [⟨.stacked_imbalance_buy, 80, 100, 0, ""⟩, ⟨.delta_divergence_bull, 80, 100, 0, ""⟩,
       ⟨.absorption_support, 80, 100, 0, ""⟩] (984/13)).side = .buy := rfl
  have hsl : 1/200 < (slTpDistances c10StateW.completed c4Candle
      (classifyStrategy
        [⟨.stacked_imbalance_buy, 80, 100, 0, ""⟩, ⟨.delta_divergence_bull, 80, 100, 0, ""⟩,
         ⟨.absorption_support, 80, 100, 0, ""⟩]
        (buildLongSignal c10StateW c4Candle
          [⟨.stacked_imbalance_buy, 80, 100, 0, ""⟩, ⟨.delta_divergence_bull, 80, 100, 0, ""⟩,
           ⟨.absorption_support, 80, 100, 0, ""⟩] (984/13)).side)).1 := by
    rw [hside, hcls, hd]
    norm_num
  have htp : 1/200 < (slTpDistances c10StateW.completed c4Candle
      (classifyStrategy
        [⟨.stacked_imbalance_buy, 80, 100, 0, ""⟩, ⟨.delta_divergence_bull, 80, 100, 0, ""⟩,
         ⟨.absorption_support, 80, 100, 0, ""⟩]
        (buildLongSignal c10StateW c4Candle
          [⟨.stacked_imbalance_buy, 80, 100, 0, ""⟩, ⟨.delta_divergence_bull, 80, 100, 0, ""⟩,
           ⟨.absorption_support, 80, 100, 0, ""⟩] (984/13)).side)).2 := by
    rw [hside, hcls, hd]
    norm_num
  refine ⟨_, h, hsl, htp, ?_⟩
  exact (C10_sl_tp_strict_sides c10StateW c4Candle _ _ h hsl htp).1 hside
